import Mathlib

/-
Verification development for the PCC-RL packet-level network simulator
(src/src/simulator/network.py, src/src/simulator/trace.py,
src/src/common/utils.py).

Numbers are modelled by the rationals: the Python code computes with
floats, but every arithmetic operation appearing in the modelled code is
a field operation, so the rational model is the exact-arithmetic reading
of the code.  Python exceptions (assertion failures, index errors) are
modelled by Option: a crash is the value none.

Code of the repository that is not under src/ (simulator/constants.py,
simulator/link.py, common/sender_obs.py) is modelled from the spec; each
such definition carries a doc comment starting with
Modelled from the spec.
-/

/-- Arithmetic mean of a list of rationals; the empty list yields 0
(numpy would yield NaN there, a case no settled claim depends on). -/
def listMean (l : List ℚ) : ℚ := l.sum / l.length

/-- Python round-half-even of a rational to an integer. -/
def pyRoundInt (x : ℚ) : ℤ :=
  let n : ℤ := ⌊x⌋
  let frac : ℚ := x - n
  if frac < 1/2 then n
  else if 1/2 < frac then n + 1
  else if n % 2 = 0 then n else n + 1

/-- Python round(x, 3): round half to even at the third decimal. -/
def pyRound3 (x : ℚ) : ℚ := (pyRoundInt (x * 1000) : ℚ) / 1000

/-- src/src/common/utils.py, pcc_aurora_reward.  The Python function
asserts avg_bw is not None (modelled: none input yields none) and
returns 10 * 50 * throughput / avg_bw - 1000 * delay - 2000 * loss;
min_rtt is an unused parameter. -/
def pcc_aurora_reward (throughput delay loss : ℚ) (avg_bw : Option ℚ)
    (min_rtt : Option ℚ) : Option ℚ :=
  match avg_bw with
  | none => none
  | some bw => some (10 * 50 * throughput / bw - 1000 * delay - 2000 * loss)

/-- src/src/simulator/trace.py, class Trace.  The idx field is the
mutable cursor tracking the position in the trace. -/
structure Trace where
  timestamps : List ℚ
  bandwidths : List ℚ
  delays : List ℚ
  loss_rate : ℚ
  queue_size : ℕ
  idx : ℕ
deriving DecidableEq, Repr

/-- src/src/simulator/trace.py, Trace.__init__: the only validation is
the assertion len(timestamps) == len(bandwidths); an assertion failure
is modelled as none. -/
def Trace.init? (timestamps bandwidths delays : List ℚ) (loss_rate : ℚ)
    (queue_size : ℕ) : Option Trace :=
  if timestamps.length = bandwidths.length then
    some ⟨timestamps, bandwidths, delays, loss_rate, queue_size, 0⟩
  else none

/-- Cursor advance shared by Trace.get_bandwidth and Trace.get_delay:
while idx + 1 < len(timestamps) and timestamps[idx + 1] <= ts: idx += 1.
The fuel argument bounds the walk by the list length. -/
def traceAdvanceAux : ℕ → List ℚ → ℕ → ℚ → ℕ
  | 0, _, i, _ => i
  | fuel + 1, l, i, t =>
    if i + 1 < l.length ∧ l.getD (i + 1) 0 ≤ t then
      traceAdvanceAux fuel l (i + 1) t
    else i

def traceAdvance (l : List ℚ) (i : ℕ) (t : ℚ) : ℕ :=
  traceAdvanceAux l.length l i t

/-- src/src/simulator/trace.py, Trace.get_bandwidth.  Faithful to the
code, including the quirk that the out-of-range guard compares idx with
len(delays) and returns delays[-1] (not bandwidths[-1]). -/
def Trace.get_bandwidth (tr : Trace) (ts : ℚ) : ℚ × Trace :=
  let i := traceAdvance tr.timestamps tr.idx ts
  let tr2 := { tr with idx := i }
  if i ≥ tr.delays.length then (tr.delays.getLastD 0, tr2)
  else (tr.bandwidths.getD i 0, tr2)

/-- src/src/simulator/trace.py, Trace.get_delay. -/
def Trace.get_delay (tr : Trace) (ts : ℚ) : ℚ × Trace :=
  let i := traceAdvance tr.timestamps tr.idx ts
  let tr2 := { tr with idx := i }
  if i ≥ tr.delays.length then (tr.delays.getLastD 0, tr2)
  else (tr.delays.getD i 0, tr2)

/-- src/src/simulator/trace.py, Trace.is_finished. -/
def Trace.is_finished (tr : Trace) (ts : ℚ) : Bool :=
  tr.timestamps.getLastD 0 ≤ ts

/-- src/src/simulator/trace.py, Trace.reset. -/
def Trace.resetCursor (tr : Trace) : Trace := { tr with idx := 0 }

/-- C1: for every throughput, latency, loss and non-None avg_bw, the
reward is exactly 500 * throughput / avg_bw - 1000 * latency -
2000 * loss, and the min_rtt argument has no effect on the result. -/
theorem C1_reward_formula (t d l bw : ℚ) (mr mr2 : Option ℚ) :
    pcc_aurora_reward t d l (some bw) mr
      = some (500 * t / bw - 1000 * d - 2000 * l) ∧
    pcc_aurora_reward t d l (some bw) mr
      = pcc_aurora_reward t d l (some bw) mr2 := by
  constructor
  · simp only [pcc_aurora_reward, Option.some.injEq]
    ring_nf
  · rfl

/-- C8, counterexample: a Trace whose delays list does not match the
timestamps in length is accepted by Trace.__init__ (the constructor only
checks len(timestamps) == len(bandwidths)), refuting the claim that such
a construction fails fast. -/
theorem C8_counterexample :
    ([(0 : ℚ)].length ≠ ([] : List ℚ).length) ∧
    (Trace.init? [0] [1] [] 0 500).isSome = true := by
  constructor
  · decide
  · rfl

/-- C8, amended: Trace.__init__ fails at construction exactly when the
timestamps and bandwidths lists differ in length; a mismatched delays
list or an empty timestamps list is not rejected. -/
theorem C8_amended (ts bw ds : List ℚ) (lr : ℚ) (q : ℕ) :
    Trace.init? ts bw ds lr q = none ↔ ts.length ≠ bw.length := by
  unfold Trace.init?
  split
  · simp_all
  · simp_all

/-- Modelled from the spec: simulator/constants.py is not under src/.
BYTES_PER_PACKET is the fixed packet size used to convert between
packet counts and byte counts. -/
def BYTES_PER_PACKET : ℚ := 1500

/-- Modelled from the spec: the packet size as an integer, for the
bytes_in_flight counter. -/
def BPPZ : ℤ := 1500

/-- Modelled from the spec: simulator/constants.py is not under src/;
rate-clamp lower bound for Sender.set_rate. -/
def MIN_RATE : ℚ := 1/4

/-- Modelled from the spec: rate-clamp upper bound for Sender.set_rate. -/
def MAX_RATE : ℚ := 10000

/-- Modelled from the spec: the next monitor-interval duration is a
fixed multiple of the measured average latency; the multiplier. -/
def MI_RTT_PROPORTION : ℚ := 1

/-- Modelled from the spec: global scale applied to the reward at the
environment boundary. -/
def REWARD_SCALE : ℚ := 1/1000

/-- Modelled from the spec: simulator/constants.py is not under src/;
the spec names the two event types SEND and ACK. -/
inductive EventType
  | ack
  | send
deriving DecidableEq, Repr

/-- Rank of an event type in the heap tuple comparison.  The Python
heap entries carry the event-type strings, and the ACK string sorts
before the SEND string. -/
def EventType.rank : EventType → ℕ
  | .ack => 0
  | .send => 1

/-- One entry of the simulation priority queue: the Python tuple
(time, sender, type, next_hop, cur_latency, dropped, event_id, rto,
event_queue_delay), with the (single) sender reference dropped. -/
structure Event where
  time : ℚ
  etype : EventType
  next_hop : ℕ
  latency : ℚ
  dropped : Bool
  id : ℕ
  rto : ℚ
  queue_delay : ℚ
deriving DecidableEq, Repr

def boolRank (b : Bool) : ℕ := if b then 1 else 0

/-- The heapq comparison key of an event.  Python compares the pushed
tuples lexicographically; with a single sender the sender component
never decides (identical object), and distinct event ids make the id
component decisive before rto or queue_delay is reached. -/
def Event.key (e : Event) : ℚ ×ₗ (ℕ ×ₗ (ℕ ×ₗ (ℚ ×ₗ (ℕ ×ₗ ℕ)))) :=
  toLex (e.time, toLex (e.etype.rank, toLex (e.next_hop,
    toLex (e.latency, toLex (boolRank e.dropped, e.id)))))

/-- Queue order: event a is dispatched no later than b. -/
def qLe (a b : Event) : Prop := a.key ≤ b.key

instance : DecidableRel qLe := fun a b => inferInstanceAs (Decidable (a.key ≤ b.key))

instance : IsTotal Event qLe := ⟨fun a b => le_total a.key b.key⟩

instance : IsTrans Event qLe := ⟨fun _ _ _ h1 h2 => le_trans h1 h2⟩

/-- heapq.heappush on the model queue: the queue is kept as the list of
pending events in dispatch order, so a push is an ordered insert. -/
def qPush (e : Event) (q : List Event) : List Event := q.orderedInsert qLe e

/-- The model queue is sorted in dispatch order; heapq pops the
tuple-minimal entry, which is the head of this list. -/
def qSorted (q : List Event) : Prop := List.Sorted qLe q

/-- Modelled from the spec: common/sender_obs.py is not under src/.
A SenderMonitorInterval is the immutable snapshot of one finalized
monitor interval; the field values are those passed at the construction
site in Sender.get_run_data (src/src/simulator/network.py). -/
structure MonitorInterval where
  bytes_sent : ℚ
  bytes_acked : ℚ
  bytes_lost : ℚ
  send_start : ℚ
  send_end : ℚ
  recv_start : ℚ
  recv_end : ℚ
  rtt_samples : List ℚ
  queue_delay_samples : List ℚ
  packet_size : ℚ
deriving DecidableEq, Repr

def MonitorInterval.zero : MonitorInterval := ⟨0, 0, 0, 0, 0, 0, 0, [], [], 0⟩

def minList (l : List ℚ) : ℚ :=
  match l with
  | [] => 0
  | x :: xs => xs.foldl min x

def maxList (l : List ℚ) : ℚ :=
  match l with
  | [] => 0
  | x :: xs => xs.foldl max x

/-- Modelled from the spec: derived MI feature, receive rate in bits
per second (a zero-length receive window yields 0 in this model). -/
def mi_recv_rate (m : MonitorInterval) : ℚ :=
  8 * m.bytes_acked / (m.recv_end - m.recv_start)

/-- Modelled from the spec: derived MI feature, send rate in bits per
second. -/
def mi_send_rate (m : MonitorInterval) : ℚ :=
  8 * m.bytes_sent / (m.send_end - m.send_start)

/-- Modelled from the spec: derived MI feature, average latency in
seconds (mean of the RTT samples). -/
def mi_avg_latency (m : MonitorInterval) : ℚ := listMean m.rtt_samples

/-- Modelled from the spec: derived MI feature, fraction of bytes lost. -/
def mi_loss (m : MonitorInterval) : ℚ :=
  if 0 < m.bytes_lost + m.bytes_acked
  then m.bytes_lost / (m.bytes_lost + m.bytes_acked) else 0

/-- Modelled from the spec: the sent-latency-inflation observation
feature (latency growth across the interval over its duration). -/
def mi_lat_inflation (m : MonitorInterval) : ℚ :=
  if m.rtt_samples = [] then 0
  else (m.rtt_samples.getLastD 0 - m.rtt_samples.headD 0)
       / (m.send_end - m.send_start)

/-- Modelled from the spec: the latency-ratio observation feature
(average latency over minimum latency of the interval). -/
def mi_lat_quot (m : MonitorInterval) : ℚ :=
  if m.rtt_samples = [] then 0
  else mi_avg_latency m / minList m.rtt_samples

/-- Modelled from the spec: the recv-ratio observation feature
(receive rate over send rate). -/
def mi_recv_quot (m : MonitorInterval) : ℚ :=
  if mi_send_rate m = 0 then 0 else mi_recv_rate m / mi_send_rate m

/-- Modelled from the spec: the per-interval feature vector for the
configured features sent latency inflation, latency ratio, recv ratio. -/
def miFeatures (m : MonitorInterval) : List ℚ :=
  [mi_lat_inflation m, mi_lat_quot m, mi_recv_quot m]

/-- Modelled from the spec: SenderHistory holds the last history_len
intervals, initialized with all-zero intervals (this realizes the
zero-padding of as_array when fewer real intervals exist). -/
def histInit (n : ℕ) : List MonitorInterval :=
  List.replicate n MonitorInterval.zero

/-- Modelled from the spec: appending a finalized interval evicts the
oldest (ring-buffer semantics at fixed length). -/
def histStep (h : List MonitorInterval) (m : MonitorInterval) :
    List MonitorInterval := h.drop 1 ++ [m]

/-- Modelled from the spec: back() returns the most recently recorded
interval. -/
def histBack (h : List MonitorInterval) : MonitorInterval :=
  h.getLastD MonitorInterval.zero

/-- Modelled from the spec: as_array flattens the feature vectors of
the retained intervals in chronological order. -/
def histAsArray (h : List MonitorInterval) : List ℚ := h.flatMap miFeatures

/-- Modelled from the spec: simulator/link.py is not under src/.  Link
state for one hop: queue occupancy in packets (drained proportionally
to capacity over time) and the time of the last drain. The queue
capacity is fixed from the trace at construction. -/
structure LinkState where
  pkt_in_queue : ℚ
  queue_delay_update_time : ℚ
  queue_size : ℕ
deriving DecidableEq, Repr

/-- Modelled from the spec: link capacity in packets per second, read
from the trace bandwidth in Mbps at simulation time t (advances the
shared trace cursor). -/
def Link.get_bandwidth (tr : Trace) (t : ℚ) : ℚ × Trace :=
  let (bwMbps, tr2) := tr.get_bandwidth t
  (bwMbps * 1000000 / 8 / BYTES_PER_PACKET, tr2)

/-- Modelled from the spec: queueing delay contributed by the packets
currently in the buffer; occupancy is first drained proportionally to
capacity over the time since the last update. -/
def Link.get_cur_queue_delay (l : LinkState) (tr : Trace) (t : ℚ) :
    ℚ × LinkState × Trace :=
  let (bw, tr2) := Link.get_bandwidth tr t
  let occ := max 0 (l.pkt_in_queue - (t - l.queue_delay_update_time) * bw)
  (occ / bw, { l with pkt_in_queue := occ, queue_delay_update_time := t }, tr2)

/-- Modelled from the spec: the hop latency is the trace propagation
delay (ms, converted to seconds) plus the current queueing delay. -/
def Link.get_cur_latency (l : LinkState) (tr : Trace) (t : ℚ) :
    ℚ × LinkState × Trace :=
  let (d, tr2) := tr.get_delay t
  let (qd, l2, tr3) := Link.get_cur_queue_delay l tr2 t
  (d / 1000 + qd, l2, tr3)

/-- Modelled from the spec: packet admission.  The packet is dropped
with probability loss_rate (the draw argument models the uniform random
sample) or when the queue is at capacity; admission increments the
occupancy. -/
def Link.packet_enters_link (l : LinkState) (tr : Trace) (t : ℚ)
    (draw : ℚ) : Bool × LinkState × Trace :=
  if draw < tr.loss_rate then (false, l, tr)
  else
    let (_, l2, tr2) := Link.get_cur_queue_delay l tr t
    if (l2.queue_size : ℚ) < 1 + l2.pkt_in_queue then (false, l2, tr2)
    else (true, { l2 with pkt_in_queue := l2.pkt_in_queue + 1 }, tr2)

/-- Modelled from the spec: Link.reset clears the queue occupancy. -/
def Link.reset (l : LinkState) : LinkState :=
  { l with pkt_in_queue := 0, queue_delay_update_time := 0 }

/-- src/src/simulator/network.py, class Sender: the per-flow
congestion-control state.  The path is fixed to the two links created in
create_new_links_and_senders, and dest is 0 as at that call site.  The
three calls_* fields are instrumentation counting the invocations of
on_packet_acked, on_packet_lost and timeout; they influence nothing. -/
structure SenderSt where
  delta_scale : ℚ
  starting_rate : ℚ
  rate : ℚ
  sent : ℕ
  acked : ℕ
  lost : ℕ
  bytes_in_flight : ℤ
  min_latency : Option ℚ
  rtt_samples : List ℚ
  rtt_samples_ts : List ℚ
  queue_delay_samples : List ℚ
  prev_rtt_samples : List ℚ
  dest : ℕ
  history_len : ℕ
  history : List MonitorInterval
  cwnd : ℚ
  use_cwnd : Bool
  rto : ℚ
  pkt_loss_wait_time : ℤ
  estRTT : ℚ
  RTTVar : ℚ
  got_data : Bool
  min_rtt : ℚ
  max_tput : ℚ
  start_stage : Bool
  lat_diff : ℚ
  recv_rate : ℚ
  send_rate : ℚ
  avg_latency : ℚ
  latest_rtt : ℚ
  obs_start_time : ℚ
  calls_acked : ℕ
  calls_lost : ℕ
  calls_timeout : ℕ
deriving DecidableEq

/-- Sender.set_rate: assign and clamp into the MIN_RATE / MAX_RATE
interval. -/
def Sender.set_rate (s : SenderSt) (new_rate : ℚ) : SenderSt :=
  let r1 := new_rate
  let r2 := if MAX_RATE < r1 then MAX_RATE else r1
  let r3 := if r2 < MIN_RATE then MIN_RATE else r2
  { s with rate := r3 }

/-- Sender.apply_rate_delta: multiplicative rate update, scaled by
delta_scale, then clamped by set_rate. -/
def Sender.apply_rate_delta (s : SenderSt) (delta : ℚ) : SenderSt :=
  let d := delta * s.delta_scale
  if 0 ≤ d then Sender.set_rate s (s.rate * (1 + d))
  else Sender.set_rate s (s.rate / (1 - d))

/-- Sender.can_send_packet: window-gated in cwnd mode, always true in
rate mode. -/
def Sender.can_send_packet (s : SenderSt) : Bool :=
  if s.use_cwnd
  then decide ((s.bytes_in_flight : ℚ) / BYTES_PER_PACKET < s.cwnd)
  else true

/-- Sender.on_packet_sent. -/
def Sender.on_packet_sent (s : SenderSt) : SenderSt :=
  { s with sent := s.sent + 1, bytes_in_flight := s.bytes_in_flight + BPPZ }

/-- Sender.on_packet_acked: EWMA RTT update (the variance update reads
the already-updated estRTT, as the code does), sample recording,
in-flight decrement, got_data latch. -/
def Sender.on_packet_acked (s : SenderSt) (rtt : ℚ) (curTime : ℚ) : SenderSt :=
  let estRTT2 := (7 * s.estRTT + rtt) / 8
  let rttvar2 := (s.RTTVar * 7 + |rtt - estRTT2| * 1) / 8
  let samples2 := s.rtt_samples ++ [rtt]
  let minlat2 :=
    match s.min_latency with
    | none => some rtt
    | some m => if rtt < m then some rtt else some m
  { s with
    min_rtt := min s.min_rtt rtt
    estRTT := estRTT2
    RTTVar := rttvar2
    acked := s.acked + 1
    rtt_samples := samples2
    rtt_samples_ts := s.rtt_samples_ts ++ [curTime]
    min_latency := minlat2
    bytes_in_flight := s.bytes_in_flight - BPPZ
    got_data := if s.got_data then true else decide (1 ≤ samples2.length)
    calls_acked := s.calls_acked + 1 }

/-- Sender.on_packet_lost: loss counter and in-flight decrement only. -/
def Sender.on_packet_lost (s : SenderSt) : SenderSt :=
  { s with
    lost := s.lost + 1
    bytes_in_flight := s.bytes_in_flight - BPPZ
    calls_lost := s.calls_lost + 1 }

/-- Sender.timeout: the body is a placeholder (pass); only the
instrumentation counter records the invocation. -/
def Sender.timeout (s : SenderSt) : SenderSt :=
  { s with calls_timeout := s.calls_timeout + 1 }

/-- Sender.reset_obs: clear the per-interval counters and samples,
caching the previous RTT sample list when it is non-empty. -/
def Sender.reset_obs (s : SenderSt) (curTime : ℚ) : SenderSt :=
  { s with
    sent := 0
    acked := 0
    lost := 0
    prev_rtt_samples :=
      if s.rtt_samples ≠ [] then s.rtt_samples else s.prev_rtt_samples
    rtt_samples := []
    rtt_samples_ts := []
    queue_delay_samples := []
    obs_start_time := curTime }

/-- Sender.get_run_data: build the finalized MonitorInterval.  When the
computed recv_start is 0 the code reads rtt_samples_ts[0] and counts one
ack less; with an empty rtt_samples_ts that read raises (none). -/
def Sender.get_run_data (s : SenderSt) (obs_end_time : ℚ) :
    Option MonitorInterval :=
  let rtt_samples :=
    if s.rtt_samples = [] ∧ s.prev_rtt_samples ≠ []
    then [listMean s.prev_rtt_samples] else s.rtt_samples
  let recv_start :=
    if 1 ≤ s.rtt_samples.length then (histBack s.history).recv_end
    else s.obs_start_time
  let recv_end :=
    if 1 ≤ s.rtt_samples.length then s.rtt_samples_ts.getLastD 0
    else obs_end_time
  if recv_start = 0 then
    match s.rtt_samples_ts.head? with
    | none => none
    | some ts0 =>
      some { bytes_sent := (s.sent : ℚ) * BYTES_PER_PACKET
             bytes_acked := (((s.acked : ℤ) - 1 : ℤ) : ℚ) * BYTES_PER_PACKET
             bytes_lost := (s.lost : ℚ) * BYTES_PER_PACKET
             send_start := s.obs_start_time
             send_end := obs_end_time
             recv_start := ts0
             recv_end := recv_end
             rtt_samples := rtt_samples
             queue_delay_samples := s.queue_delay_samples
             packet_size := BYTES_PER_PACKET }
  else
    some { bytes_sent := (s.sent : ℚ) * BYTES_PER_PACKET
           bytes_acked := (s.acked : ℚ) * BYTES_PER_PACKET
           bytes_lost := (s.lost : ℚ) * BYTES_PER_PACKET
           send_start := s.obs_start_time
           send_end := obs_end_time
           recv_start := recv_start
           recv_end := recv_end
           rtt_samples := rtt_samples
           queue_delay_samples := s.queue_delay_samples
           packet_size := BYTES_PER_PACKET }

/-- Sender.reset: return the sender to its starting state for a new
episode.  As in the code, prev_rtt_samples is only refreshed through
reset_obs (it survives the reset when the old interval had samples). -/
def Sender.reset (s : SenderSt) (curTime : ℚ) : SenderSt :=
  let s2 := Sender.reset_obs
    { s with
      rate := s.starting_rate
      bytes_in_flight := 0
      min_latency := none } curTime
  { s2 with
    history := histInit s.history_len
    estRTT := 1
    RTTVar := 1/2
    got_data := false
    min_rtt := 10
    max_tput := 0
    start_stage := true
    lat_diff := 0
    recv_rate := 0
    send_rate := 0
    avg_latency := 0
    latest_rtt := 0
    calls_acked := 0
    calls_lost := 0
    calls_timeout := 0 }

/-- src/src/simulator/network.py, class Network together with the
environment fields it reads and writes (current_trace cursor, run_dur,
the shared two-link path).  loss_draws models the stream of uniform
random samples consumed by packet admission (an exhausted stream draws
1, which never loses for loss rates at most 1). -/
structure NetSt where
  trace : Trace
  link0 : LinkState
  link1 : LinkState
  sender : SenderSt
  q : List Event
  event_count : ℕ
  cur_time : ℚ
  recv_rate_cache : List ℚ
  run_dur : ℚ
  extra_delays : List ℚ
  loss_draws : List ℚ
deriving DecidableEq

/-- The path sender.path = [links[0], links[1]] has length 2. -/
def pathLen : ℕ := 2

def NetSt.getLink (s : NetSt) (i : ℕ) : LinkState :=
  if i = 0 then s.link0 else s.link1

def NetSt.setLink (s : NetSt) (i : ℕ) (l : LinkState) : NetSt :=
  if i = 0 then { s with link0 := l } else { s with link1 := l }

/-- Dispatch of an ACK event at next_hop == len(path): the three
mutually exclusive outcomes of run_for_dur (timeout when an rto was
attached, exceeded, and no loss-dedup timer is active; loss when the
dropped flag is set; success otherwise). -/
def dispatchAckFinal (s : NetSt) (e : Event) : NetSt :=
  if 0 ≤ e.rto ∧ e.rto < e.latency ∧ s.sender.pkt_loss_wait_time ≤ 0 then
    { s with sender := Sender.timeout s.sender }
  else if e.dropped then
    { s with sender := Sender.on_packet_lost s.sender }
  else
    { s with sender := Sender.on_packet_acked s.sender e.latency s.cur_time }

/-- Dispatch of an ACK event at next_hop < len(path): the packet keeps
traversing the path; its queueing delay and hop latency are read from
the next link and the arrival event is pushed. -/
def dispatchAckForward (s : NetSt) (e : Event) : NetSt :=
  let l := s.getLink e.next_hop
  let (qd, l2, tr2) := Link.get_cur_queue_delay l s.trace s.cur_time
  let (lat, l3, tr3) := Link.get_cur_latency l2 tr2 s.cur_time
  let ev2 : Event :=
    { time := e.time + lat
      etype := EventType.ack
      next_hop := e.next_hop + 1
      latency := e.latency + lat
      dropped := e.dropped
      id := e.id
      rto := e.rto
      queue_delay := e.queue_delay + qd }
  let s2 := s.setLink e.next_hop l3
  { s2 with trace := tr3, q := qPush ev2 s2.q }

/-- Dispatch of a SEND event.  At hop 0 the sender books the packet if
can_send_packet() and, unconditionally, the next pacing SEND at
now + 1/rate is pushed; the packet then attempts to enter the hop link
(the admission outcome sets the dropped flag but the packet is
propagated either way, becoming an ACK when the hop is the destination).
At hop > 0 the packet is forwarded identically without re-pacing. -/
def dispatchSend (s : NetSt) (e : Event) : NetSt :=
  let canSend := Sender.can_send_packet s.sender
  let s1 :=
    if e.next_hop = 0 then
      let sA := if canSend
        then { s with sender := Sender.on_packet_sent s.sender } else s
      let pacing : Event :=
        { time := sA.cur_time + 1 / sA.sender.rate
          etype := EventType.send
          next_hop := 0
          latency := 0
          dropped := false
          id := sA.event_count
          rto := sA.sender.rto
          queue_delay := 0 }
      { sA with q := qPush pacing sA.q, event_count := sA.event_count + 1 }
    else s
  let push_new := if e.next_hop = 0 then canSend else true
  let newType :=
    if e.next_hop = s1.sender.dest then EventType.ack else EventType.send
  let l := s1.getLink e.next_hop
  let (qd, l2, tr2) := Link.get_cur_queue_delay l s1.trace s1.cur_time
  let (lat, l3, tr3) := Link.get_cur_latency l2 tr2 s1.cur_time
  let (admitted, l4, tr4) :=
    Link.packet_enters_link l3 tr3 s1.cur_time (s1.loss_draws.headD 1)
  let new_dropped := !admitted
  let s2 := { (s1.setLink e.next_hop l4) with
    trace := tr4
    loss_draws := s1.loss_draws.drop 1 }
  let (bw0, tr5) := Link.get_bandwidth s2.trace s2.cur_time
  let s3 := { s2 with
    trace := tr5
    extra_delays := s2.extra_delays ++ [1 / bw0] }
  let s4 :=
    if new_dropped then s3
    else { s3 with sender := { s3.sender with
      queue_delay_samples :=
        s3.sender.queue_delay_samples ++ [e.queue_delay + qd] } }
  let pktEv : Event :=
    { time := e.time + lat
      etype := newType
      next_hop := e.next_hop + 1
      latency := e.latency + lat
      dropped := new_dropped
      id := e.id
      rto := e.rto
      queue_delay := e.queue_delay + qd }
  if push_new then { s4 with q := qPush pktEv s4.q }
  else s4

/-- One event dispatch of Network.run_for_dur, for a popped event e;
the caller has already set cur_time to e.time and removed e from the
queue. -/
def dispatchEvent (s : NetSt) (e : Event) : NetSt :=
  if e.etype = EventType.ack then
    if e.next_hop = pathLen then dispatchAckFinal s e
    else dispatchAckForward s e
  else dispatchSend s e

/-- Outcome of running the event loop with a fuel bound: the loop broke
at its exit condition (done), the fuel ran out with the loop still
going (more, carrying the state reached so far), or the queue emptied
(fail, the Python code would raise an IndexError). -/
inductive LoopOut
  | done (s : NetSt)
  | more (s : NetSt)
  | fail
deriving DecidableEq

/-- The event loop of Network.run_for_dur: repeatedly peek the earliest
pending event; break (leaving it in the queue and advancing the clock
to its time) when the sender already got data, the event time has
reached the target end time, and the event is a SEND; otherwise pop and
dispatch it. -/
def runLoop : ℕ → ℚ → NetSt → LoopOut
  | 0, _, s => LoopOut.more s
  | fuel + 1, endTime, s =>
    match s.q with
    | [] => LoopOut.fail
    | e :: rest =>
      if s.sender.got_data = true ∧ endTime ≤ e.time ∧
          e.etype = EventType.send then
        LoopOut.done { s with cur_time := e.time }
      else
        runLoop fuel endTime
          (dispatchEvent { s with q := rest, cur_time := e.time } e)

/-- The tail of Network.run_for_dur after the event loop: record_run
(finalize the MonitorInterval into the history), read the derived
features, compute the reward against the trace-average bandwidth and
delay, adapt run_dur when latency is positive, store the per-interval
statistics on the sender, push the rounded receive rate into the
6-entry cache, recompute max_tput as the cache maximum, and apply the
start_stage transitions; an empty MI rtt_samples list makes the
rtt_samples[-1] read raise (none). -/
def finalizeRun (s : NetSt) : Option (NetSt × ℚ) :=
  match Sender.get_run_data s.sender s.cur_time with
  | none => none
  | some mi =>
    match mi.rtt_samples.getLast?, mi.rtt_samples.head? with
    | some rlast, some rfirst =>
      let snd0 := { s.sender with history := histStep s.sender.history mi }
      let throughput := mi_recv_rate mi
      let latency := mi_avg_latency mi
      let loss := mi_loss mi
      let avg_bw := listMean s.trace.bandwidths * 1000000 / 8 / BYTES_PER_PACKET
      let min_rtt_arg := listMean s.trace.delays * 2 / 1000
      let reward :=
        (pcc_aurora_reward (throughput / 8 / BYTES_PER_PACKET) latency loss
          (some avg_bw) (some min_rtt_arg)).getD 0
      let run_dur2 :=
        if 0 < latency
        then MI_RTT_PROPORTION * latency + listMean s.extra_delays
        else s.run_dur
      let recvR := pyRound3 (mi_recv_rate mi)
      let sendR := pyRound3 (mi_send_rate mi)
      let latdiff := rlast - rfirst
      let cache0 := s.recv_rate_cache ++ [recvR]
      let cache := if 6 < cache0.length then cache0.drop 1 else cache0
      let snd := { snd0 with
        avg_latency := latency
        recv_rate := recvR
        send_rate := sendR
        lat_diff := latdiff
        latest_rtt := rlast
        max_tput := maxList cache
        start_stage := if latdiff = 0 then snd0.start_stage else false }
      some ({ s with
        sender := snd
        recv_rate_cache := cache
        run_dur := run_dur2 }, reward * REWARD_SCALE)
    | _, _ => none

/-- The entry code of Network.run_for_dur before its event loop: clear
start_stage when the previous interval saw a latency change, fix the
target end time (first component), and reset the per-interval
observation counters (second component). -/
def rfdPre (dur : ℚ) (s0 : NetSt) : ℚ × NetSt :=
  let sA :=
    if s0.sender.lat_diff ≠ 0
    then { s0 with sender := { s0.sender with start_stage := false } }
    else s0
  let endTime := min (sA.cur_time + dur) (sA.trace.timestamps.getLastD 0)
  let sB := { sA with
    sender := Sender.reset_obs sA.sender sA.cur_time
    extra_delays := [] }
  (endTime, sB)

/-- src/src/simulator/network.py, Network.run_for_dur: the preamble,
the event loop, then finalization; a crashing or non-terminating loop
gives none. -/
def runForDur (fuel : ℕ) (dur : ℚ) (s0 : NetSt) : Option (NetSt × ℚ) :=
  match runLoop fuel (rfdPre dur s0).1 (rfdPre dur s0).2 with
  | LoopOut.done s1 => finalizeRun s1
  | _ => none

/-- src/src/simulator/network.py, Network.queue_initial_packets: reset
the per-interval observation counters and push the initial SEND event
at time 0 with a fresh event id. -/
def queue_initial_packets (s : NetSt) : NetSt :=
  let snd := Sender.reset_obs s.sender s.cur_time
  let ev : Event :=
    { time := 0
      etype := EventType.send
      next_hop := 0
      latency := 0
      dropped := false
      id := s.event_count
      rto := snd.rto
      queue_delay := 0 }
  { s with
    sender := snd
    q := qPush ev s.q
    event_count := s.event_count + 1 }

/-- src/src/simulator/network.py, Network.reset: zero the clock, empty
the event queue, reset links and sender, queue the initial packets and
clear the receive-rate cache. -/
def Network.reset (s : NetSt) : NetSt :=
  let s2 := { s with
    cur_time := 0
    q := []
    link0 := Link.reset s.link0
    link1 := Link.reset s.link1
    sender := Sender.reset s.sender 0
    recv_rate_cache := [] }
  queue_initial_packets s2

/-- src/src/simulator/network.py,
SimulatedNetworkEnv.create_new_links_and_senders followed by the
Network constructor: two links sharing the trace, one aurora sender
with starting rate 10 / (get_delay(0) * 2 / 1000) (the get_delay(0)
call advances the shared trace cursor), dest 0, history length 10,
delta_scale 1, and run_dur 0.01 for the fresh sender. -/
def envInitNet (tr : Trace) : NetSt :=
  let (d0, tr1) := tr.get_delay 0
  let rate := 10 / (d0 * 2 / 1000)
  let l : LinkState :=
    { pkt_in_queue := 0
      queue_delay_update_time := 0
      queue_size := tr.queue_size }
  let snd : SenderSt :=
    { delta_scale := 1
      starting_rate := rate
      rate := rate
      sent := 0
      acked := 0
      lost := 0
      bytes_in_flight := 0
      min_latency := none
      rtt_samples := []
      rtt_samples_ts := []
      queue_delay_samples := []
      prev_rtt_samples := []
      dest := 0
      history_len := 10
      history := histInit 10
      cwnd := 25
      use_cwnd := false
      rto := -1
      pkt_loss_wait_time := -1
      estRTT := 1
      RTTVar := 1/2
      got_data := false
      min_rtt := 10
      max_tput := 0
      start_stage := true
      lat_diff := 0
      recv_rate := 0
      send_rate := 0
      avg_latency := 0
      latest_rtt := 0
      obs_start_time := 0
      calls_acked := 0
      calls_lost := 0
      calls_timeout := 0 }
  queue_initial_packets
    { trace := tr1
      link0 := l
      link1 := l
      sender := snd
      q := []
      event_count := 0
      cur_time := 0
      recv_rate_cache := []
      run_dur := 1/100
      extra_delays := []
      loss_draws := [] }

/-- src/src/simulator/network.py, SimulatedNetworkEnv.reset for a
single-trace environment: the trace cursor is reset, links, sender and
Network are rebuilt from scratch, and one bootstrap interval of
run_dur = 0.01 is run before the observation is returned.  Only the
underlying trace data enters the result. -/
def envReset (fuel : ℕ) (s : NetSt) : Option NetSt :=
  match runForDur fuel (1/100) (envInitNet s.trace.resetCursor) with
  | none => none
  | some (s2, _) => some s2

/-- src/src/simulator/network.py, SimulatedNetworkEnv.step: apply the
rate delta, run one monitor interval of the current run_dur, and
report the new state, the reward and the done flag. -/
def stepApply (delta : ℚ) (s : NetSt) : NetSt :=
  { s with sender := Sender.apply_rate_delta s.sender delta }

def envStep (fuel : ℕ) (delta : ℚ) (s : NetSt) : Option (NetSt × ℚ × Bool) :=
  match runForDur fuel s.run_dur (stepApply delta s) with
  | none => none
  | some (s2, reward) =>
    some (s2, reward, s2.trace.is_finished s2.cur_time)

/-- The observation returned by reset and step: the flattened feature
history of the (single) sender. -/
def envObs (s : NetSt) : List ℚ := histAsArray s.sender.history

/-- The demonstration trace for the concrete counterexample runs: a
constant 0.24 Mbps, 200 ms one-way delay, zero-loss trace of 30 seconds
with a 500-packet queue.  The link capacity is 0.24e6 / 8 / 1500 = 20
packets per second while the sender starting rate is
10 / (0.2 * 2) = 25 packets per second, so the queue builds up and
latency grows during the first intervals. -/
def demoTrace : Trace :=
  { timestamps := [0, 30]
    bandwidths := [6/25, 6/25]
    delays := [200, 200]
    loss_rate := 0
    queue_size := 500
    idx := 0 }
/-
Staged evaluation of the demonstration run: one environment reset
followed by seven steps (rate delta -3 once, then 0).  The pasted
literal states and rewards are verified against the executable
semantics by kernel evaluation in the chainReset / chainStep theorems.
Rat.add and friends are irreducible in Batteries, which blocks plain
decide; making them semireducible again restores the standard kernel
evaluation path.
-/

section StagedRun

attribute [local semireducible] Rat.add Rat.sub Rat.mul Rat.inv Rat.ofScientific

set_option maxRecDepth 40000

/-- Environment state at the end of interval 0 of the run. -/
def chainS0 : NetSt := { trace := { timestamps := [0, 30], bandwidths := [(6 : Rat)/25, (6 : Rat)/25], delays := [200, 200], loss_rate := 0, queue_size := 500, idx := 0 }, link0 := { pkt_in_queue := (14 : Rat)/5, queue_delay_update_time := (9 : Rat)/25, queue_size := 500 }, link1 := { pkt_in_queue := 0, queue_delay_update_time := (2 : Rat)/5, queue_size := 500 }, sender := { delta_scale := 1, starting_rate := 25, rate := 25, sent := 10, acked := 1, lost := 0, bytes_in_flight := 13500, min_latency := some ((2 : Rat)/5), rtt_samples := [(2 : Rat)/5], rtt_samples_ts := [(2 : Rat)/5], queue_delay_samples := [0, (1 : Rat)/100, (1 : Rat)/50, (3 : Rat)/100, (1 : Rat)/25, (1 : Rat)/20, (3 : Rat)/50, (7 : Rat)/100, (2 : Rat)/25, (9 : Rat)/100], prev_rtt_samples := [], dest := 0, history_len := 10, history := [{ bytes_sent := 0, bytes_acked := 0, bytes_lost := 0, send_start := 0, send_end := 0, recv_start := 0, recv_end := 0, rtt_samples := [], queue_delay_samples := [], packet_size := 0 }, { bytes_sent := 0, bytes_acked := 0, bytes_lost := 0, send_start := 0, send_end := 0, recv_start := 0, recv_end := 0, rtt_samples := [], queue_delay_samples := [], packet_size := 0 }, { bytes_sent := 0, bytes_acked := 0, bytes_lost := 0, send_start := 0, send_end := 0, recv_start := 0, recv_end := 0, rtt_samples := [], queue_delay_samples := [], packet_size := 0 }, { bytes_sent := 0, bytes_acked := 0, bytes_lost := 0, send_start := 0, send_end := 0, recv_start := 0, recv_end := 0, rtt_samples := [], queue_delay_samples := [], packet_size := 0 }, { bytes_sent := 0, bytes_acked := 0, bytes_lost := 0, send_start := 0, send_end := 0, recv_start := 0, recv_end := 0, rtt_samples := [], queue_delay_samples := [], packet_size := 0 }, { bytes_sent := 0, bytes_acked := 0, bytes_lost := 0, send_start := 0, send_end := 0, recv_start := 0, recv_end := 0, rtt_samples := [], queue_delay_samples := [], packet_size := 0 }, { bytes_sent := 0, bytes_acked := 0, bytes_lost := 0, send_start := 0, send_end := 0, recv_start := 0, recv_end := 0, rtt_samples := [], queue_delay_samples := [], packet_size := 0 }, { bytes_sent := 0, bytes_acked := 0, bytes_lost := 0, send_start := 0, send_end := 0, recv_start := 0, recv_end := 0, rtt_samples := [], queue_delay_samples := [], packet_size := 0 }, { bytes_sent := 0, bytes_acked := 0, bytes_lost := 0, send_start := 0, send_end := 0, recv_start := 0, recv_end := 0, rtt_samples := [], queue_delay_samples := [], packet_size := 0 }, { bytes_sent := 15000, bytes_acked := 0, bytes_lost := 0, send_start := 0, send_end := (2 : Rat)/5, recv_start := (2 : Rat)/5, recv_end := (2 : Rat)/5, rtt_samples := [(2 : Rat)/5], queue_delay_samples := [0, (1 : Rat)/100, (1 : Rat)/50, (3 : Rat)/100, (1 : Rat)/25, (1 : Rat)/20, (3 : Rat)/50, (7 : Rat)/100, (2 : Rat)/25, (9 : Rat)/100], packet_size := 1500 }], cwnd := 25, use_cwnd := false, rto := -1, pkt_loss_wait_time := -1, estRTT := (37 : Rat)/40, RTTVar := (161 : Rat)/320, got_data := true, min_rtt := (2 : Rat)/5, max_tput := 0, start_stage := true, lat_diff := 0, recv_rate := 0, send_rate := 300000, avg_latency := (2 : Rat)/5, latest_rtt := (2 : Rat)/5, obs_start_time := 0, calls_acked := 1, calls_lost := 0, calls_timeout := 0 }, q := [{ time := (2 : Rat)/5, etype := EventType.send, next_hop := 0, latency := 0, dropped := false, id := 10, rto := -1, queue_delay := 0 }, { time := (9 : Rat)/20, etype := EventType.ack, next_hop := 1, latency := (1 : Rat)/4, dropped := false, id := 5, rto := -1, queue_delay := (1 : Rat)/20 }, { time := (9 : Rat)/20, etype := EventType.ack, next_hop := 2, latency := (41 : Rat)/100, dropped := false, id := 1, rto := -1, queue_delay := (1 : Rat)/100 }, { time := (1 : Rat)/2, etype := EventType.ack, next_hop := 1, latency := (13 : Rat)/50, dropped := false, id := 6, rto := -1, queue_delay := (3 : Rat)/50 }, { time := (1 : Rat)/2, etype := EventType.ack, next_hop := 2, latency := (21 : Rat)/50, dropped := false, id := 2, rto := -1, queue_delay := (1 : Rat)/50 }, { time := (11 : Rat)/20, etype := EventType.ack, next_hop := 1, latency := (27 : Rat)/100, dropped := false, id := 7, rto := -1, queue_delay := (7 : Rat)/100 }, { time := (11 : Rat)/20, etype := EventType.ack, next_hop := 2, latency := (43 : Rat)/100, dropped := false, id := 3, rto := -1, queue_delay := (3 : Rat)/100 }, { time := (3 : Rat)/5, etype := EventType.ack, next_hop := 1, latency := (7 : Rat)/25, dropped := false, id := 8, rto := -1, queue_delay := (2 : Rat)/25 }, { time := (3 : Rat)/5, etype := EventType.ack, next_hop := 2, latency := (11 : Rat)/25, dropped := false, id := 4, rto := -1, queue_delay := (1 : Rat)/25 }, { time := (13 : Rat)/20, etype := EventType.ack, next_hop := 1, latency := (29 : Rat)/100, dropped := false, id := 9, rto := -1, queue_delay := (9 : Rat)/100 }], event_count := 11, cur_time := (2 : Rat)/5, recv_rate_cache := [0], run_dur := (9 : Rat)/20, extra_delays := [(1 : Rat)/20, (1 : Rat)/20, (1 : Rat)/20, (1 : Rat)/20, (1 : Rat)/20, (1 : Rat)/20, (1 : Rat)/20, (1 : Rat)/20, (1 : Rat)/20, (1 : Rat)/20], loss_draws := [] }

/-- Reward of interval 0 of the run. -/
def chainR0 : ℚ := (-2 : Rat)/5

/-- Environment state at the end of interval 1 of the run. -/
def chainS1 : NetSt := { trace := { timestamps := [0, 30], bandwidths := [(6 : Rat)/25, (6 : Rat)/25], delays := [200, 200], loss_rate := 0, queue_size := 500, idx := 0 }, link0 := { pkt_in_queue := 1, queue_delay_update_time := (18 : Rat)/25, queue_size := 500 }, link1 := { pkt_in_queue := 0, queue_delay_update_time := (19 : Rat)/25, queue_size := 500 }, sender := { delta_scale := 1, starting_rate := 25, rate := (25 : Rat)/4, sent := 3, acked := 9, lost := 0, bytes_in_flight := 4500, min_latency := some ((2 : Rat)/5), rtt_samples := [(41 : Rat)/100, (21 : Rat)/50, (43 : Rat)/100, (11 : Rat)/25, (9 : Rat)/20, (23 : Rat)/50, (47 : Rat)/100, (12 : Rat)/25, (49 : Rat)/100], rtt_samples_ts := [(9 : Rat)/20, (1 : Rat)/2, (11 : Rat)/20, (3 : Rat)/5, (13 : Rat)/20, (7 : Rat)/10, (3 : Rat)/4, (4 : Rat)/5, (17 : Rat)/20], queue_delay_samples := [(1 : Rat)/10, 0, 0], prev_rtt_samples := [(2 : Rat)/5], dest := 0, history_len := 10, history := [{ bytes_sent := 0, bytes_acked := 0, bytes_lost := 0, send_start := 0, send_end := 0, recv_start := 0, recv_end := 0, rtt_samples := [], queue_delay_samples := [], packet_size := 0 }, { bytes_sent := 0, bytes_acked := 0, bytes_lost := 0, send_start := 0, send_end := 0, recv_start := 0, recv_end := 0, rtt_samples := [], queue_delay_samples := [], packet_size := 0 }, { bytes_sent := 0, bytes_acked := 0, bytes_lost := 0, send_start := 0, send_end := 0, recv_start := 0, recv_end := 0, rtt_samples := [], queue_delay_samples := [], packet_size := 0 }, { bytes_sent := 0, bytes_acked := 0, bytes_lost := 0, send_start := 0, send_end := 0, recv_start := 0, recv_end := 0, rtt_samples := [], queue_delay_samples := [], packet_size := 0 }, { bytes_sent := 0, bytes_acked := 0, bytes_lost := 0, send_start := 0, send_end := 0, recv_start := 0, recv_end := 0, rtt_samples := [], queue_delay_samples := [], packet_size := 0 }, { bytes_sent := 0, bytes_acked := 0, bytes_lost := 0, send_start := 0, send_end := 0, recv_start := 0, recv_end := 0, rtt_samples := [], queue_delay_samples := [], packet_size := 0 }, { bytes_sent := 0, bytes_acked := 0, bytes_lost := 0, send_start := 0, send_end := 0, recv_start := 0, recv_end := 0, rtt_samples := [], queue_delay_samples := [], packet_size := 0 }, { bytes_sent := 0, bytes_acked := 0, bytes_lost := 0, send_start := 0, send_end := 0, recv_start := 0, recv_end := 0, rtt_samples := [], queue_delay_samples := [], packet_size := 0 }, { bytes_sent := 15000, bytes_acked := 0, bytes_lost := 0, send_start := 0, send_end := (2 : Rat)/5, recv_start := (2 : Rat)/5, recv_end := (2 : Rat)/5, rtt_samples := [(2 : Rat)/5], queue_delay_samples := [0, (1 : Rat)/100, (1 : Rat)/50, (3 : Rat)/100, (1 : Rat)/25, (1 : Rat)/20, (3 : Rat)/50, (7 : Rat)/100, (2 : Rat)/25, (9 : Rat)/100], packet_size := 1500 }, { bytes_sent := 4500, bytes_acked := 13500, bytes_lost := 0, send_start := (2 : Rat)/5, send_end := (22 : Rat)/25, recv_start := (2 : Rat)/5, recv_end := (17 : Rat)/20, rtt_samples := [(41 : Rat)/100, (21 : Rat)/50, (43 : Rat)/100, (11 : Rat)/25, (9 : Rat)/20, (23 : Rat)/50, (47 : Rat)/100, (12 : Rat)/25, (49 : Rat)/100], queue_delay_samples := [(1 : Rat)/10, 0, 0], packet_size := 1500 }], cwnd := 25, use_cwnd := false, rto := -1, pkt_loss_wait_time := -1, estRTT := (3215273677 : Rat)/5368709120, RTTVar := (3259529259 : Rat)/10737418240, got_data := true, min_rtt := (2 : Rat)/5, max_tput := 240000, start_stage := false, lat_diff := (2 : Rat)/25, recv_rate := 240000, send_rate := 75000, avg_latency := (9 : Rat)/20, latest_rtt := (49 : Rat)/100, obs_start_time := (2 : Rat)/5, calls_acked := 10, calls_lost := 0, calls_timeout := 0 }, q := [{ time := (22 : Rat)/25, etype := EventType.send, next_hop := 0, latency := 0, dropped := false, id := 13, rto := -1, queue_delay := 0 }, { time := (9 : Rat)/10, etype := EventType.ack, next_hop := 2, latency := (1 : Rat)/2, dropped := false, id := 10, rto := -1, queue_delay := (1 : Rat)/10 }, { time := (23 : Rat)/25, etype := EventType.ack, next_hop := 1, latency := (1 : Rat)/5, dropped := false, id := 12, rto := -1, queue_delay := 0 }, { time := (24 : Rat)/25, etype := EventType.ack, next_hop := 2, latency := (2 : Rat)/5, dropped := false, id := 11, rto := -1, queue_delay := 0 }], event_count := 14, cur_time := (22 : Rat)/25, recv_rate_cache := [0, 240000], run_dur := (1 : Rat)/2, extra_delays := [(1 : Rat)/20, (1 : Rat)/20, (1 : Rat)/20], loss_draws := [] }

/-- Reward of interval 1 of the run. -/
def chainR1 : ℚ := (1 : Rat)/20

/-- Environment state at the end of interval 2 of the run. -/
def chainS2 : NetSt := { trace := { timestamps := [0, 30], bandwidths := [(6 : Rat)/25, (6 : Rat)/25], delays := [200, 200], loss_rate := 0, queue_size := 500, idx := 0 }, link0 := { pkt_in_queue := 1, queue_delay_update_time := (34 : Rat)/25, queue_size := 500 }, link1 := { pkt_in_queue := 0, queue_delay_update_time := (7 : Rat)/5, queue_size := 500 }, sender := { delta_scale := 1, starting_rate := 25, rate := (25 : Rat)/4, sent := 4, acked := 5, lost := 0, bytes_in_flight := 3000, min_latency := some ((2 : Rat)/5), rtt_samples := [(1 : Rat)/2, (2 : Rat)/5, (2 : Rat)/5, (2 : Rat)/5, (2 : Rat)/5], rtt_samples_ts := [(9 : Rat)/10, (24 : Rat)/25, (28 : Rat)/25, (32 : Rat)/25, (36 : Rat)/25], queue_delay_samples := [0, 0, 0, 0], prev_rtt_samples := [(41 : Rat)/100, (21 : Rat)/50, (43 : Rat)/100, (11 : Rat)/25, (9 : Rat)/20, (23 : Rat)/50, (47 : Rat)/100, (12 : Rat)/25, (49 : Rat)/100], dest := 0, history_len := 10, history := [{ bytes_sent := 0, bytes_acked := 0, bytes_lost := 0, send_start := 0, send_end := 0, recv_start := 0, recv_end := 0, rtt_samples := [], queue_delay_samples := [], packet_size := 0 }, { bytes_sent := 0, bytes_acked := 0, bytes_lost := 0, send_start := 0, send_end := 0, recv_start := 0, recv_end := 0, rtt_samples := [], queue_delay_samples := [], packet_size := 0 }, { bytes_sent := 0, bytes_acked := 0, bytes_lost := 0, send_start := 0, send_end := 0, recv_start := 0, recv_end := 0, rtt_samples := [], queue_delay_samples := [], packet_size := 0 }, { bytes_sent := 0, bytes_acked := 0, bytes_lost := 0, send_start := 0, send_end := 0, recv_start := 0, recv_end := 0, rtt_samples := [], queue_delay_samples := [], packet_size := 0 }, { bytes_sent := 0, bytes_acked := 0, bytes_lost := 0, send_start := 0, send_end := 0, recv_start := 0, recv_end := 0, rtt_samples := [], queue_delay_samples := [], packet_size := 0 }, { bytes_sent := 0, bytes_acked := 0, bytes_lost := 0, send_start := 0, send_end := 0, recv_start := 0, recv_end := 0, rtt_samples := [], queue_delay_samples := [], packet_size := 0 }, { bytes_sent := 0, bytes_acked := 0, bytes_lost := 0, send_start := 0, send_end := 0, recv_start := 0, recv_end := 0, rtt_samples := [], queue_delay_samples := [], packet_size := 0 }, { bytes_sent := 15000, bytes_acked := 0, bytes_lost := 0, send_start := 0, send_end := (2 : Rat)/5, recv_start := (2 : Rat)/5, recv_end := (2 : Rat)/5, rtt_samples := [(2 : Rat)/5], queue_delay_samples := [0, (1 : Rat)/100, (1 : Rat)/50, (3 : Rat)/100, (1 : Rat)/25, (1 : Rat)/20, (3 : Rat)/50, (7 : Rat)/100, (2 : Rat)/25, (9 : Rat)/100], packet_size := 1500 }, { bytes_sent := 4500, bytes_acked := 13500, bytes_lost := 0, send_start := (2 : Rat)/5, send_end := (22 : Rat)/25, recv_start := (2 : Rat)/5, recv_end := (17 : Rat)/20, rtt_samples := [(41 : Rat)/100, (21 : Rat)/50, (43 : Rat)/100, (11 : Rat)/25, (9 : Rat)/20, (23 : Rat)/50, (47 : Rat)/100, (12 : Rat)/25, (49 : Rat)/100], queue_delay_samples := [(1 : Rat)/10, 0, 0], packet_size := 1500 }, { bytes_sent := 6000, bytes_acked := 7500, bytes_lost := 0, send_start := (22 : Rat)/25, send_end := (38 : Rat)/25, recv_start := (17 : Rat)/20, recv_end := (36 : Rat)/25, rtt_samples := [(1 : Rat)/2, (2 : Rat)/5, (2 : Rat)/5, (2 : Rat)/5, (2 : Rat)/5], queue_delay_samples := [0, 0, 0, 0], packet_size := 1500 }], cwnd := 25, use_cwnd := false, rto := -1, pkt_loss_wait_time := -1, estRTT := (89604118254779 : Rat)/175921860444160, RTTVar := (304996286931931 : Rat)/1407374883553280, got_data := true, min_rtt := (2 : Rat)/5, max_tput := 240000, start_stage := false, lat_diff := (-1 : Rat)/10, recv_rate := (20338983 : Rat)/200, send_rate := 75000, avg_latency := (21 : Rat)/50, latest_rtt := (2 : Rat)/5, obs_start_time := (22 : Rat)/25, calls_acked := 15, calls_lost := 0, calls_timeout := 0 }, q := [{ time := (38 : Rat)/25, etype := EventType.send, next_hop := 0, latency := 0, dropped := false, id := 17, rto := -1, queue_delay := 0 }, { time := (39 : Rat)/25, etype := EventType.ack, next_hop := 1, latency := (1 : Rat)/5, dropped := false, id := 16, rto := -1, queue_delay := 0 }, { time := (8 : Rat)/5, etype := EventType.ack, next_hop := 2, latency := (2 : Rat)/5, dropped := false, id := 15, rto := -1, queue_delay := 0 }], event_count := 18, cur_time := (38 : Rat)/25, recv_rate_cache := [0, 240000, (20338983 : Rat)/200], run_dur := (47 : Rat)/100, extra_delays := [(1 : Rat)/20, (1 : Rat)/20, (1 : Rat)/20, (1 : Rat)/20], loss_draws := [] }

/-- Reward of interval 2 of the run. -/
def chainR2 : ℚ := (-307 : Rat)/1475

/-- Environment state at the end of interval 3 of the run. -/
def chainS3 : NetSt := { trace := { timestamps := [0, 30], bandwidths := [(6 : Rat)/25, (6 : Rat)/25], delays := [200, 200], loss_rate := 0, queue_size := 500, idx := 0 }, link0 := { pkt_in_queue := 1, queue_delay_update_time := (46 : Rat)/25, queue_size := 500 }, link1 := { pkt_in_queue := 0, queue_delay_update_time := (47 : Rat)/25, queue_size := 500 }, sender := { delta_scale := 1, starting_rate := 25, rate := (25 : Rat)/4, sent := 3, acked := 3, lost := 0, bytes_in_flight := 3000, min_latency := some ((2 : Rat)/5), rtt_samples := [(2 : Rat)/5, (2 : Rat)/5, (2 : Rat)/5], rtt_samples_ts := [(8 : Rat)/5, (44 : Rat)/25, (48 : Rat)/25], queue_delay_samples := [0, 0, 0], prev_rtt_samples := [(1 : Rat)/2, (2 : Rat)/5, (2 : Rat)/5, (2 : Rat)/5, (2 : Rat)/5], dest := 0, history_len := 10, history := [{ bytes_sent := 0, bytes_acked := 0, bytes_lost := 0, send_start := 0, send_end := 0, recv_start := 0, recv_end := 0, rtt_samples := [], queue_delay_samples := [], packet_size := 0 }, { bytes_sent := 0, bytes_acked := 0, bytes_lost := 0, send_start := 0, send_end := 0, recv_start := 0, recv_end := 0, rtt_samples := [], queue_delay_samples := [], packet_size := 0 }, { bytes_sent := 0, bytes_acked := 0, bytes_lost := 0, send_start := 0, send_end := 0, recv_start := 0, recv_end := 0, rtt_samples := [], queue_delay_samples := [], packet_size := 0 }, { bytes_sent := 0, bytes_acked := 0, bytes_lost := 0, send_start := 0, send_end := 0, recv_start := 0, recv_end := 0, rtt_samples := [], queue_delay_samples := [], packet_size := 0 }, { bytes_sent := 0, bytes_acked := 0, bytes_lost := 0, send_start := 0, send_end := 0, recv_start := 0, recv_end := 0, rtt_samples := [], queue_delay_samples := [], packet_size := 0 }, { bytes_sent := 0, bytes_acked := 0, bytes_lost := 0, send_start := 0, send_end := 0, recv_start := 0, recv_end := 0, rtt_samples := [], queue_delay_samples := [], packet_size := 0 }, { bytes_sent := 15000, bytes_acked := 0, bytes_lost := 0, send_start := 0, send_end := (2 : Rat)/5, recv_start := (2 : Rat)/5, recv_end := (2 : Rat)/5, rtt_samples := [(2 : Rat)/5], queue_delay_samples := [0, (1 : Rat)/100, (1 : Rat)/50, (3 : Rat)/100, (1 : Rat)/25, (1 : Rat)/20, (3 : Rat)/50, (7 : Rat)/100, (2 : Rat)/25, (9 : Rat)/100], packet_size := 1500 }, { bytes_sent := 4500, bytes_acked := 13500, bytes_lost := 0, send_start := (2 : Rat)/5, send_end := (22 : Rat)/25, recv_start := (2 : Rat)/5, recv_end := (17 : Rat)/20, rtt_samples := [(41 : Rat)/100, (21 : Rat)/50, (43 : Rat)/100, (11 : Rat)/25, (9 : Rat)/20, (23 : Rat)/50, (47 : Rat)/100, (12 : Rat)/25, (49 : Rat)/100], queue_delay_samples := [(1 : Rat)/10, 0, 0], packet_size := 1500 }, { bytes_sent := 6000, bytes_acked := 7500, bytes_lost := 0, send_start := (22 : Rat)/25, send_end := (38 : Rat)/25, recv_start := (17 : Rat)/20, recv_end := (36 : Rat)/25, rtt_samples := [(1 : Rat)/2, (2 : Rat)/5, (2 : Rat)/5, (2 : Rat)/5, (2 : Rat)/5], queue_delay_samples := [0, 0, 0, 0], packet_size := 1500 }, { bytes_sent := 4500, bytes_acked := 4500, bytes_lost := 0, send_start := (38 : Rat)/25, send_end := 2, recv_start := (36 : Rat)/25, recv_end := (48 : Rat)/25, rtt_samples := [(2 : Rat)/5, (2 : Rat)/5, (2 : Rat)/5], queue_delay_samples := [0, 0, 0], packet_size := 1500 }], cwnd := 25, use_cwnd := false, rto := -1, pkt_loss_wait_time := -1, estRTT := (42626530327414413 : Rat)/90071992547409920, RTTVar := (31101731585750917 : Rat)/180143985094819840, got_data := true, min_rtt := (2 : Rat)/5, max_tput := 240000, start_stage := false, lat_diff := 0, recv_rate := 75000, send_rate := 75000, avg_latency := (2 : Rat)/5, latest_rtt := (2 : Rat)/5, obs_start_time := (38 : Rat)/25, calls_acked := 18, calls_lost := 0, calls_timeout := 0 }, q := [{ time := 2, etype := EventType.send, next_hop := 0, latency := 0, dropped := false, id := 20, rto := -1, queue_delay := 0 }, { time := (51 : Rat)/25, etype := EventType.ack, next_hop := 1, latency := (1 : Rat)/5, dropped := false, id := 19, rto := -1, queue_delay := 0 }, { time := (52 : Rat)/25, etype := EventType.ack, next_hop := 2, latency := (2 : Rat)/5, dropped := false, id := 18, rto := -1, queue_delay := 0 }], event_count := 21, cur_time := 2, recv_rate_cache := [0, 240000, (20338983 : Rat)/200, 75000], run_dur := (9 : Rat)/20, extra_delays := [(1 : Rat)/20, (1 : Rat)/20, (1 : Rat)/20], loss_draws := [] }

/-- Reward of interval 3 of the run. -/
def chainR3 : ℚ := (-39 : Rat)/160

/-- Environment state at the end of interval 4 of the run. -/
def chainS4 : NetSt := { trace := { timestamps := [0, 30], bandwidths := [(6 : Rat)/25, (6 : Rat)/25], delays := [200, 200], loss_rate := 0, queue_size := 500, idx := 0 }, link0 := { pkt_in_queue := 1, queue_delay_update_time := (58 : Rat)/25, queue_size := 500 }, link1 := { pkt_in_queue := 0, queue_delay_update_time := (59 : Rat)/25, queue_size := 500 }, sender := { delta_scale := 1, starting_rate := 25, rate := (25 : Rat)/4, sent := 3, acked := 3, lost := 0, bytes_in_flight := 3000, min_latency := some ((2 : Rat)/5), rtt_samples := [(2 : Rat)/5, (2 : Rat)/5, (2 : Rat)/5], rtt_samples_ts := [(52 : Rat)/25, (56 : Rat)/25, (12 : Rat)/5], queue_delay_samples := [0, 0, 0], prev_rtt_samples := [(2 : Rat)/5, (2 : Rat)/5, (2 : Rat)/5], dest := 0, history_len := 10, history := [{ bytes_sent := 0, bytes_acked := 0, bytes_lost := 0, send_start := 0, send_end := 0, recv_start := 0, recv_end := 0, rtt_samples := [], queue_delay_samples := [], packet_size := 0 }, { bytes_sent := 0, bytes_acked := 0, bytes_lost := 0, send_start := 0, send_end := 0, recv_start := 0, recv_end := 0, rtt_samples := [], queue_delay_samples := [], packet_size := 0 }, { bytes_sent := 0, bytes_acked := 0, bytes_lost := 0, send_start := 0, send_end := 0, recv_start := 0, recv_end := 0, rtt_samples := [], queue_delay_samples := [], packet_size := 0 }, { bytes_sent := 0, bytes_acked := 0, bytes_lost := 0, send_start := 0, send_end := 0, recv_start := 0, recv_end := 0, rtt_samples := [], queue_delay_samples := [], packet_size := 0 }, { bytes_sent := 0, bytes_acked := 0, bytes_lost := 0, send_start := 0, send_end := 0, recv_start := 0, recv_end := 0, rtt_samples := [], queue_delay_samples := [], packet_size := 0 }, { bytes_sent := 15000, bytes_acked := 0, bytes_lost := 0, send_start := 0, send_end := (2 : Rat)/5, recv_start := (2 : Rat)/5, recv_end := (2 : Rat)/5, rtt_samples := [(2 : Rat)/5], queue_delay_samples := [0, (1 : Rat)/100, (1 : Rat)/50, (3 : Rat)/100, (1 : Rat)/25, (1 : Rat)/20, (3 : Rat)/50, (7 : Rat)/100, (2 : Rat)/25, (9 : Rat)/100], packet_size := 1500 }, { bytes_sent := 4500, bytes_acked := 13500, bytes_lost := 0, send_start := (2 : Rat)/5, send_end := (22 : Rat)/25, recv_start := (2 : Rat)/5, recv_end := (17 : Rat)/20, rtt_samples := [(41 : Rat)/100, (21 : Rat)/50, (43 : Rat)/100, (11 : Rat)/25, (9 : Rat)/20, (23 : Rat)/50, (47 : Rat)/100, (12 : Rat)/25, (49 : Rat)/100], queue_delay_samples := [(1 : Rat)/10, 0, 0], packet_size := 1500 }, { bytes_sent := 6000, bytes_acked := 7500, bytes_lost := 0, send_start := (22 : Rat)/25, send_end := (38 : Rat)/25, recv_start := (17 : Rat)/20, recv_end := (36 : Rat)/25, rtt_samples := [(1 : Rat)/2, (2 : Rat)/5, (2 : Rat)/5, (2 : Rat)/5, (2 : Rat)/5], queue_delay_samples := [0, 0, 0, 0], packet_size := 1500 }, { bytes_sent := 4500, bytes_acked := 4500, bytes_lost := 0, send_start := (38 : Rat)/25, send_end := 2, recv_start := (36 : Rat)/25, recv_end := (48 : Rat)/25, rtt_samples := [(2 : Rat)/5, (2 : Rat)/5, (2 : Rat)/5], queue_delay_samples := [0, 0, 0], packet_size := 1500 }, { bytes_sent := 4500, bytes_acked := 4500, bytes_lost := 0, send_start := 2, send_end := (62 : Rat)/25, recv_start := (48 : Rat)/25, recv_end := (12 : Rat)/5, rtt_samples := [(2 : Rat)/5, (2 : Rat)/5, (2 : Rat)/5], queue_delay_samples := [0, 0, 0], packet_size := 1500 }], cwnd := 25, use_cwnd := false, rto := -1, pkt_loss_wait_time := -1, estRTT := (20709766598508054251 : Rat)/46116860184273879040, RTTVar := (49460643310045766029 : Rat)/368934881474191032320, got_data := true, min_rtt := (2 : Rat)/5, max_tput := 240000, start_stage := false, lat_diff := 0, recv_rate := 75000, send_rate := 75000, avg_latency := (2 : Rat)/5, latest_rtt := (2 : Rat)/5, obs_start_time := 2, calls_acked := 21, calls_lost := 0, calls_timeout := 0 }, q := [{ time := (62 : Rat)/25, etype := EventType.send, next_hop := 0, latency := 0, dropped := false, id := 23, rto := -1, queue_delay := 0 }, { time := (63 : Rat)/25, etype := EventType.ack, next_hop := 1, latency := (1 : Rat)/5, dropped := false, id := 22, rto := -1, queue_delay := 0 }, { time := (64 : Rat)/25, etype := EventType.ack, next_hop := 2, latency := (2 : Rat)/5, dropped := false, id := 21, rto := -1, queue_delay := 0 }], event_count := 24, cur_time := (62 : Rat)/25, recv_rate_cache := [0, 240000, (20338983 : Rat)/200, 75000, 75000], run_dur := (9 : Rat)/20, extra_delays := [(1 : Rat)/20, (1 : Rat)/20, (1 : Rat)/20], loss_draws := [] }

/-- Reward of interval 4 of the run. -/
def chainR4 : ℚ := (-39 : Rat)/160

/-- Environment state at the end of interval 5 of the run. -/
def chainS5 : NetSt := { trace := { timestamps := [0, 30], bandwidths := [(6 : Rat)/25, (6 : Rat)/25], delays := [200, 200], loss_rate := 0, queue_size := 500, idx := 0 }, link0 := { pkt_in_queue := 1, queue_delay_update_time := (14 : Rat)/5, queue_size := 500 }, link1 := { pkt_in_queue := 0, queue_delay_update_time := (71 : Rat)/25, queue_size := 500 }, sender := { delta_scale := 1, starting_rate := 25, rate := (25 : Rat)/4, sent := 3, acked := 3, lost := 0, bytes_in_flight := 3000, min_latency := some ((2 : Rat)/5), rtt_samples := [(2 : Rat)/5, (2 : Rat)/5, (2 : Rat)/5], rtt_samples_ts := [(64 : Rat)/25, (68 : Rat)/25, (72 : Rat)/25], queue_delay_samples := [0, 0, 0], prev_rtt_samples := [(2 : Rat)/5, (2 : Rat)/5, (2 : Rat)/5], dest := 0, history_len := 10, history := [{ bytes_sent := 0, bytes_acked := 0, bytes_lost := 0, send_start := 0, send_end := 0, recv_start := 0, recv_end := 0, rtt_samples := [], queue_delay_samples := [], packet_size := 0 }, { bytes_sent := 0, bytes_acked := 0, bytes_lost := 0, send_start := 0, send_end := 0, recv_start := 0, recv_end := 0, rtt_samples := [], queue_delay_samples := [], packet_size := 0 }, { bytes_sent := 0, bytes_acked := 0, bytes_lost := 0, send_start := 0, send_end := 0, recv_start := 0, recv_end := 0, rtt_samples := [], queue_delay_samples := [], packet_size := 0 }, { bytes_sent := 0, bytes_acked := 0, bytes_lost := 0, send_start := 0, send_end := 0, recv_start := 0, recv_end := 0, rtt_samples := [], queue_delay_samples := [], packet_size := 0 }, { bytes_sent := 15000, bytes_acked := 0, bytes_lost := 0, send_start := 0, send_end := (2 : Rat)/5, recv_start := (2 : Rat)/5, recv_end := (2 : Rat)/5, rtt_samples := [(2 : Rat)/5], queue_delay_samples := [0, (1 : Rat)/100, (1 : Rat)/50, (3 : Rat)/100, (1 : Rat)/25, (1 : Rat)/20, (3 : Rat)/50, (7 : Rat)/100, (2 : Rat)/25, (9 : Rat)/100], packet_size := 1500 }, { bytes_sent := 4500, bytes_acked := 13500, bytes_lost := 0, send_start := (2 : Rat)/5, send_end := (22 : Rat)/25, recv_start := (2 : Rat)/5, recv_end := (17 : Rat)/20, rtt_samples := [(41 : Rat)/100, (21 : Rat)/50, (43 : Rat)/100, (11 : Rat)/25, (9 : Rat)/20, (23 : Rat)/50, (47 : Rat)/100, (12 : Rat)/25, (49 : Rat)/100], queue_delay_samples := [(1 : Rat)/10, 0, 0], packet_size := 1500 }, { bytes_sent := 6000, bytes_acked := 7500, bytes_lost := 0, send_start := (22 : Rat)/25, send_end := (38 : Rat)/25, recv_start := (17 : Rat)/20, recv_end := (36 : Rat)/25, rtt_samples := [(1 : Rat)/2, (2 : Rat)/5, (2 : Rat)/5, (2 : Rat)/5, (2 : Rat)/5], queue_delay_samples := [0, 0, 0, 0], packet_size := 1500 }, { bytes_sent := 4500, bytes_acked := 4500, bytes_lost := 0, send_start := (38 : Rat)/25, send_end := 2, recv_start := (36 : Rat)/25, recv_end := (48 : Rat)/25, rtt_samples := [(2 : Rat)/5, (2 : Rat)/5, (2 : Rat)/5], queue_delay_samples := [0, 0, 0], packet_size := 1500 }, { bytes_sent := 4500, bytes_acked := 4500, bytes_lost := 0, send_start := 2, send_end := (62 : Rat)/25, recv_start := (48 : Rat)/25, recv_end := (12 : Rat)/5, rtt_samples := [(2 : Rat)/5, (2 : Rat)/5, (2 : Rat)/5], queue_delay_samples := [0, 0, 0], packet_size := 1500 }, { bytes_sent := 4500, bytes_acked := 4500, bytes_lost := 0, send_start := (62 : Rat)/25, send_end := (74 : Rat)/25, recv_start := (12 : Rat)/5, recv_end := (72 : Rat)/25, rtt_samples := [(2 : Rat)/5, (2 : Rat)/5, (2 : Rat)/5], queue_delay_samples := [0, 0, 0], packet_size := 1500 }], cwnd := 25, use_cwnd := false, rto := -1, pkt_loss_wait_time := -1, estRTT := (10220949691745176831197 : Rat)/23611832414348226068480, RTTVar := (9646825416681678479681 : Rat)/94447329657392904273920, got_data := true, min_rtt := (2 : Rat)/5, max_tput := 240000, start_stage := false, lat_diff := 0, recv_rate := 75000, send_rate := 75000, avg_latency := (2 : Rat)/5, latest_rtt := (2 : Rat)/5, obs_start_time := (62 : Rat)/25, calls_acked := 24, calls_lost := 0, calls_timeout := 0 }, q := [{ time := (74 : Rat)/25, etype := EventType.send, next_hop := 0, latency := 0, dropped := false, id := 26, rto := -1, queue_delay := 0 }, { time := 3, etype := EventType.ack, next_hop := 1, latency := (1 : Rat)/5, dropped := false, id := 25, rto := -1, queue_delay := 0 }, { time := (76 : Rat)/25, etype := EventType.ack, next_hop := 2, latency := (2 : Rat)/5, dropped := false, id := 24, rto := -1, queue_delay := 0 }], event_count := 27, cur_time := (74 : Rat)/25, recv_rate_cache := [0, 240000, (20338983 : Rat)/200, 75000, 75000, 75000], run_dur := (9 : Rat)/20, extra_delays := [(1 : Rat)/20, (1 : Rat)/20, (1 : Rat)/20], loss_draws := [] }

/-- Reward of interval 5 of the run. -/
def chainR5 : ℚ := (-39 : Rat)/160

/-- Environment state at the end of interval 6 of the run. -/
def chainS6 : NetSt := { trace := { timestamps := [0, 30], bandwidths := [(6 : Rat)/25, (6 : Rat)/25], delays := [200, 200], loss_rate := 0, queue_size := 500, idx := 0 }, link0 := { pkt_in_queue := 1, queue_delay_update_time := (82 : Rat)/25, queue_size := 500 }, link1 := { pkt_in_queue := 0, queue_delay_update_time := (83 : Rat)/25, queue_size := 500 }, sender := { delta_scale := 1, starting_rate := 25, rate := (25 : Rat)/4, sent := 3, acked := 3, lost := 0, bytes_in_flight := 3000, min_latency := some ((2 : Rat)/5), rtt_samples := [(2 : Rat)/5, (2 : Rat)/5, (2 : Rat)/5], rtt_samples_ts := [(76 : Rat)/25, (16 : Rat)/5, (84 : Rat)/25], queue_delay_samples := [0, 0, 0], prev_rtt_samples := [(2 : Rat)/5, (2 : Rat)/5, (2 : Rat)/5], dest := 0, history_len := 10, history := [{ bytes_sent := 0, bytes_acked := 0, bytes_lost := 0, send_start := 0, send_end := 0, recv_start := 0, recv_end := 0, rtt_samples := [], queue_delay_samples := [], packet_size := 0 }, { bytes_sent := 0, bytes_acked := 0, bytes_lost := 0, send_start := 0, send_end := 0, recv_start := 0, recv_end := 0, rtt_samples := [], queue_delay_samples := [], packet_size := 0 }, { bytes_sent := 0, bytes_acked := 0, bytes_lost := 0, send_start := 0, send_end := 0, recv_start := 0, recv_end := 0, rtt_samples := [], queue_delay_samples := [], packet_size := 0 }, { bytes_sent := 15000, bytes_acked := 0, bytes_lost := 0, send_start := 0, send_end := (2 : Rat)/5, recv_start := (2 : Rat)/5, recv_end := (2 : Rat)/5, rtt_samples := [(2 : Rat)/5], queue_delay_samples := [0, (1 : Rat)/100, (1 : Rat)/50, (3 : Rat)/100, (1 : Rat)/25, (1 : Rat)/20, (3 : Rat)/50, (7 : Rat)/100, (2 : Rat)/25, (9 : Rat)/100], packet_size := 1500 }, { bytes_sent := 4500, bytes_acked := 13500, bytes_lost := 0, send_start := (2 : Rat)/5, send_end := (22 : Rat)/25, recv_start := (2 : Rat)/5, recv_end := (17 : Rat)/20, rtt_samples := [(41 : Rat)/100, (21 : Rat)/50, (43 : Rat)/100, (11 : Rat)/25, (9 : Rat)/20, (23 : Rat)/50, (47 : Rat)/100, (12 : Rat)/25, (49 : Rat)/100], queue_delay_samples := [(1 : Rat)/10, 0, 0], packet_size := 1500 }, { bytes_sent := 6000, bytes_acked := 7500, bytes_lost := 0, send_start := (22 : Rat)/25, send_end := (38 : Rat)/25, recv_start := (17 : Rat)/20, recv_end := (36 : Rat)/25, rtt_samples := [(1 : Rat)/2, (2 : Rat)/5, (2 : Rat)/5, (2 : Rat)/5, (2 : Rat)/5], queue_delay_samples := [0, 0, 0, 0], packet_size := 1500 }, { bytes_sent := 4500, bytes_acked := 4500, bytes_lost := 0, send_start := (38 : Rat)/25, send_end := 2, recv_start := (36 : Rat)/25, recv_end := (48 : Rat)/25, rtt_samples := [(2 : Rat)/5, (2 : Rat)/5, (2 : Rat)/5], queue_delay_samples := [0, 0, 0], packet_size := 1500 }, { bytes_sent := 4500, bytes_acked := 4500, bytes_lost := 0, send_start := 2, send_end := (62 : Rat)/25, recv_start := (48 : Rat)/25, recv_end := (12 : Rat)/5, rtt_samples := [(2 : Rat)/5, (2 : Rat)/5, (2 : Rat)/5], queue_delay_samples := [0, 0, 0], packet_size := 1500 }, { bytes_sent := 4500, bytes_acked := 4500, bytes_lost := 0, send_start := (62 : Rat)/25, send_end := (74 : Rat)/25, recv_start := (12 : Rat)/5, recv_end := (72 : Rat)/25, rtt_samples := [(2 : Rat)/5, (2 : Rat)/5, (2 : Rat)/5], queue_delay_samples := [0, 0, 0], packet_size := 1500 }, { bytes_sent := 4500, bytes_acked := 4500, bytes_lost := 0, send_start := (74 : Rat)/25, send_end := (86 : Rat)/25, recv_start := (72 : Rat)/25, recv_end := (84 : Rat)/25, rtt_samples := [(2 : Rat)/5, (2 : Rat)/5, (2 : Rat)/5], queue_delay_samples := [0, 0, 0], packet_size := 1500 }], cwnd := 25, use_cwnd := false, rto := -1, pkt_loss_wait_time := -1, estRTT := (5101945615478535735329819 : Rat)/12089258196146291747061760, RTTVar := (7416449246903688546576511 : Rat)/96714065569170333976494080, got_data := true, min_rtt := (2 : Rat)/5, max_tput := 240000, start_stage := false, lat_diff := 0, recv_rate := 75000, send_rate := 75000, avg_latency := (2 : Rat)/5, latest_rtt := (2 : Rat)/5, obs_start_time := (74 : Rat)/25, calls_acked := 27, calls_lost := 0, calls_timeout := 0 }, q := [{ time := (86 : Rat)/25, etype := EventType.send, next_hop := 0, latency := 0, dropped := false, id := 29, rto := -1, queue_delay := 0 }, { time := (87 : Rat)/25, etype := EventType.ack, next_hop := 1, latency := (1 : Rat)/5, dropped := false, id := 28, rto := -1, queue_delay := 0 }, { time := (88 : Rat)/25, etype := EventType.ack, next_hop := 2, latency := (2 : Rat)/5, dropped := false, id := 27, rto := -1, queue_delay := 0 }], event_count := 30, cur_time := (86 : Rat)/25, recv_rate_cache := [240000, (20338983 : Rat)/200, 75000, 75000, 75000, 75000], run_dur := (9 : Rat)/20, extra_delays := [(1 : Rat)/20, (1 : Rat)/20, (1 : Rat)/20], loss_draws := [] }

/-- Reward of interval 6 of the run. -/
def chainR6 : ℚ := (-39 : Rat)/160

/-- Environment state at the end of interval 7 of the run. -/
def chainS7 : NetSt := { trace := { timestamps := [0, 30], bandwidths := [(6 : Rat)/25, (6 : Rat)/25], delays := [200, 200], loss_rate := 0, queue_size := 500, idx := 0 }, link0 := { pkt_in_queue := 1, queue_delay_update_time := (94 : Rat)/25, queue_size := 500 }, link1 := { pkt_in_queue := 0, queue_delay_update_time := (19 : Rat)/5, queue_size := 500 }, sender := { delta_scale := 1, starting_rate := 25, rate := (25 : Rat)/4, sent := 3, acked := 3, lost := 0, bytes_in_flight := 3000, min_latency := some ((2 : Rat)/5), rtt_samples := [(2 : Rat)/5, (2 : Rat)/5, (2 : Rat)/5], rtt_samples_ts := [(88 : Rat)/25, (92 : Rat)/25, (96 : Rat)/25], queue_delay_samples := [0, 0, 0], prev_rtt_samples := [(2 : Rat)/5, (2 : Rat)/5, (2 : Rat)/5], dest := 0, history_len := 10, history := [{ bytes_sent := 0, bytes_acked := 0, bytes_lost := 0, send_start := 0, send_end := 0, recv_start := 0, recv_end := 0, rtt_samples := [], queue_delay_samples := [], packet_size := 0 }, { bytes_sent := 0, bytes_acked := 0, bytes_lost := 0, send_start := 0, send_end := 0, recv_start := 0, recv_end := 0, rtt_samples := [], queue_delay_samples := [], packet_size := 0 }, { bytes_sent := 15000, bytes_acked := 0, bytes_lost := 0, send_start := 0, send_end := (2 : Rat)/5, recv_start := (2 : Rat)/5, recv_end := (2 : Rat)/5, rtt_samples := [(2 : Rat)/5], queue_delay_samples := [0, (1 : Rat)/100, (1 : Rat)/50, (3 : Rat)/100, (1 : Rat)/25, (1 : Rat)/20, (3 : Rat)/50, (7 : Rat)/100, (2 : Rat)/25, (9 : Rat)/100], packet_size := 1500 }, { bytes_sent := 4500, bytes_acked := 13500, bytes_lost := 0, send_start := (2 : Rat)/5, send_end := (22 : Rat)/25, recv_start := (2 : Rat)/5, recv_end := (17 : Rat)/20, rtt_samples := [(41 : Rat)/100, (21 : Rat)/50, (43 : Rat)/100, (11 : Rat)/25, (9 : Rat)/20, (23 : Rat)/50, (47 : Rat)/100, (12 : Rat)/25, (49 : Rat)/100], queue_delay_samples := [(1 : Rat)/10, 0, 0], packet_size := 1500 }, { bytes_sent := 6000, bytes_acked := 7500, bytes_lost := 0, send_start := (22 : Rat)/25, send_end := (38 : Rat)/25, recv_start := (17 : Rat)/20, recv_end := (36 : Rat)/25, rtt_samples := [(1 : Rat)/2, (2 : Rat)/5, (2 : Rat)/5, (2 : Rat)/5, (2 : Rat)/5], queue_delay_samples := [0, 0, 0, 0], packet_size := 1500 }, { bytes_sent := 4500, bytes_acked := 4500, bytes_lost := 0, send_start := (38 : Rat)/25, send_end := 2, recv_start := (36 : Rat)/25, recv_end := (48 : Rat)/25, rtt_samples := [(2 : Rat)/5, (2 : Rat)/5, (2 : Rat)/5], queue_delay_samples := [0, 0, 0], packet_size := 1500 }, { bytes_sent := 4500, bytes_acked := 4500, bytes_lost := 0, send_start := 2, send_end := (62 : Rat)/25, recv_start := (48 : Rat)/25, recv_end := (12 : Rat)/5, rtt_samples := [(2 : Rat)/5, (2 : Rat)/5, (2 : Rat)/5], queue_delay_samples := [0, 0, 0], packet_size := 1500 }, { bytes_sent := 4500, bytes_acked := 4500, bytes_lost := 0, send_start := (62 : Rat)/25, send_end := (74 : Rat)/25, recv_start := (12 : Rat)/5, recv_end := (72 : Rat)/25, rtt_samples := [(2 : Rat)/5, (2 : Rat)/5, (2 : Rat)/5], queue_delay_samples := [0, 0, 0], packet_size := 1500 }, { bytes_sent := 4500, bytes_acked := 4500, bytes_lost := 0, send_start := (74 : Rat)/25, send_end := (86 : Rat)/25, recv_start := (72 : Rat)/25, recv_end := (84 : Rat)/25, rtt_samples := [(2 : Rat)/5, (2 : Rat)/5, (2 : Rat)/5], queue_delay_samples := [0, 0, 0], packet_size := 1500 }, { bytes_sent := 4500, bytes_acked := 4500, bytes_lost := 0, send_start := (86 : Rat)/25, send_end := (98 : Rat)/25, recv_start := (84 : Rat)/25, recv_end := (96 : Rat)/25, rtt_samples := [(2 : Rat)/5, (2 : Rat)/5, (2 : Rat)/5], queue_delay_samples := [0, 0, 0], packet_size := 1500 }], cwnd := 25, use_cwnd := false, rto := -1, pkt_loss_wait_time := -1, estRTT := (2567201200168627079319502893 : Rat)/6189700196426901374495621120, RTTVar := (176112841030097797502469163 : Rat)/3094850098213450687247810560, got_data := true, min_rtt := (2 : Rat)/5, max_tput := (20338983 : Rat)/200, start_stage := false, lat_diff := 0, recv_rate := 75000, send_rate := 75000, avg_latency := (2 : Rat)/5, latest_rtt := (2 : Rat)/5, obs_start_time := (86 : Rat)/25, calls_acked := 30, calls_lost := 0, calls_timeout := 0 }, q := [{ time := (98 : Rat)/25, etype := EventType.send, next_hop := 0, latency := 0, dropped := false, id := 32, rto := -1, queue_delay := 0 }, { time := (99 : Rat)/25, etype := EventType.ack, next_hop := 1, latency := (1 : Rat)/5, dropped := false, id := 31, rto := -1, queue_delay := 0 }, { time := 4, etype := EventType.ack, next_hop := 2, latency := (2 : Rat)/5, dropped := false, id := 30, rto := -1, queue_delay := 0 }], event_count := 33, cur_time := (98 : Rat)/25, recv_rate_cache := [(20338983 : Rat)/200, 75000, 75000, 75000, 75000, 75000], run_dur := (9 : Rat)/20, extra_delays := [(1 : Rat)/20, (1 : Rat)/20, (1 : Rat)/20], loss_draws := [] }

/-- Reward of interval 7 of the run. -/
def chainR7 : ℚ := (-39 : Rat)/160

/-- SimulatedNetworkEnv.reset on the demonstration trace reaches the
state chainS0. -/
theorem chainReset : envReset 400 (envInitNet demoTrace) = some chainS0 := by
  decide

/-- Step 1 of the demonstration run (action -3). -/
theorem chainStep1 : envStep 400 (-3) chainS0 = some (chainS1, chainR1, false) := by
  decide

/-- Step 2 of the demonstration run (action 0). -/
theorem chainStep2 : envStep 400 0 chainS1 = some (chainS2, chainR2, false) := by
  decide

/-- Step 3 of the demonstration run (action 0). -/
theorem chainStep3 : envStep 400 0 chainS2 = some (chainS3, chainR3, false) := by
  decide

/-- Step 4 of the demonstration run (action 0). -/
theorem chainStep4 : envStep 400 0 chainS3 = some (chainS4, chainR4, false) := by
  decide

/-- Step 5 of the demonstration run (action 0). -/
theorem chainStep5 : envStep 400 0 chainS4 = some (chainS5, chainR5, false) := by
  decide

/-- Step 6 of the demonstration run (action 0). -/
theorem chainStep6 : envStep 400 0 chainS5 = some (chainS6, chainR6, false) := by
  decide

/-- Step 7 of the demonstration run (action 0). -/
theorem chainStep7 : envStep 400 0 chainS6 = some (chainS7, chainR7, false) := by
  decide

/-
Claim theorems.  The counterexample and witness theorems instantiate
the executable semantics at the demonstration run's states.
-/

/-- C7: a packet event that returns to the sender (an ACK at the final
hop) with its dropped flag set never reaches Sender.on_packet_acked --
the acked counter and its invocation count are unchanged -- and exactly
one of Sender.timeout or Sender.on_packet_lost is invoked for it, never
both. -/
theorem C7_dropped_never_acked (s : NetSt) (e : Event)
    (ht : e.etype = EventType.ack) (hh : e.next_hop = pathLen)
    (hd : e.dropped = true) :
    (dispatchEvent s e).sender.acked = s.sender.acked ∧
    (dispatchEvent s e).sender.calls_acked = s.sender.calls_acked ∧
    ((dispatchEvent s e).sender.calls_timeout = s.sender.calls_timeout + 1 ∧
       (dispatchEvent s e).sender.calls_lost = s.sender.calls_lost ∨
     (dispatchEvent s e).sender.calls_lost = s.sender.calls_lost + 1 ∧
       (dispatchEvent s e).sender.calls_timeout = s.sender.calls_timeout) := by
  unfold dispatchEvent
  rw [if_pos ht, if_pos hh]
  unfold dispatchAckFinal
  split
  · exact ⟨rfl, rfl, Or.inl ⟨rfl, rfl⟩⟩
  · exact ⟨rfl, rfl, Or.inr ⟨rfl, rfl⟩⟩

/-- C7, witness: a dropped ACK at the final hop of the demonstration
state chainS0 leaves acked untouched and is counted as exactly one
loss-or-timeout outcome. -/
theorem C7_witness :
    (dispatchEvent chainS0 ⟨1, EventType.ack, 2, 2/5, true, 99, -1, 0⟩).sender.acked
        = chainS0.sender.acked ∧
    (dispatchEvent chainS0 ⟨1, EventType.ack, 2, 2/5, true, 99, -1, 0⟩).sender.calls_acked
        = chainS0.sender.calls_acked ∧
    ((dispatchEvent chainS0 ⟨1, EventType.ack, 2, 2/5, true, 99, -1, 0⟩).sender.calls_timeout
        = chainS0.sender.calls_timeout + 1 ∧
       (dispatchEvent chainS0 ⟨1, EventType.ack, 2, 2/5, true, 99, -1, 0⟩).sender.calls_lost
        = chainS0.sender.calls_lost ∨
     (dispatchEvent chainS0 ⟨1, EventType.ack, 2, 2/5, true, 99, -1, 0⟩).sender.calls_lost
        = chainS0.sender.calls_lost + 1 ∧
       (dispatchEvent chainS0 ⟨1, EventType.ack, 2, 2/5, true, 99, -1, 0⟩).sender.calls_timeout
        = chainS0.sender.calls_timeout) :=
  C7_dropped_never_acked chainS0 ⟨1, EventType.ack, 2, 2/5, true, 99, -1, 0⟩ rfl rfl rfl

/-- A SEND pushed first, with the smaller event id 0. -/
def C4send : Event := ⟨1, EventType.send, 0, 0, false, 0, -1, 0⟩

/-- An ACK pushed second, with the larger event id 1 and the same time. -/
def C4ack : Event := ⟨1, EventType.ack, 2, 2/5, false, 1, -1, 0⟩

/-- C4, counterexample: with equal times the heap key compares the event
type next (the ACK string sorts before the SEND string), not the
insertion id, so the later-inserted ACK (id 1) is dequeued before the
earlier-inserted SEND (id 0). -/
theorem C4_counterexample :
    C4send.time = C4ack.time ∧ C4send.id < C4ack.id ∧
    qPush C4ack (qPush C4send []) = [C4ack, C4send] := by
  refine ⟨rfl, by decide, ?_⟩
  decide

/-- C4, amended: the queue is kept sorted by the full lexicographic
tuple key (time, type, hop, latency, dropped, id): dequeuing is in
nondecreasing time order, but equal-time ties are decided by the event
type and the further tuple fields before the id is ever compared. -/
theorem C4_amended (e : Event) (q : List Event) (h : qSorted q) :
    qSorted (qPush e q) ∧ (qPush e q).Pairwise fun a b => a.time ≤ b.time := by
  have hs : qSorted (qPush e q) := List.Sorted.orderedInsert e q h
  refine ⟨hs, List.Pairwise.imp ?_ hs⟩
  intro a b hab
  have hk : a.key ≤ b.key := hab
  simp only [Event.key] at hk
  rcases (Prod.Lex.le_iff _ _).1 hk with hlt | hrest
  · exact le_of_lt hlt
  · exact le_of_eq hrest.1

/-- C4, amended, witness: pushing the C4 events keeps the queue sorted
and its dequeue order nondecreasing in time. -/
theorem C4_amended_witness :
    qSorted (qPush C4ack [C4send]) ∧
    (qPush C4ack [C4send]).Pairwise (fun a b => a.time ≤ b.time) :=
  C4_amended C4ack [C4send] (List.sorted_singleton C4send)

/-- C2, counterexample: the monitor interval finalized by the first env
step of the demonstration run records bytes_acked = 13500 against
bytes_sent = 4500 (the ACKs of the bootstrap interval's packets arrive
during this interval), so bytes_acked ≤ bytes_sent fails at
finalization. -/
theorem C2_counterexample :
    envReset 400 (envInitNet demoTrace) = some chainS0 ∧
    envStep 400 (-3) chainS0 = some (chainS1, chainR1, false) ∧
    (histBack chainS1.sender.history).bytes_sent = 4500 ∧
    (histBack chainS1.sender.history).bytes_acked = 13500 ∧
    ¬ ((histBack chainS1.sender.history).bytes_acked
        ≤ (histBack chainS1.sender.history).bytes_sent) :=
  ⟨chainReset, chainStep1, by decide, by decide, by decide⟩

/-- C2, amended: a finalized monitor interval reports bytes_sent and
bytes_lost as the per-interval counters times the packet size, and
bytes_acked at most the acked counter times the packet size (one packet
less on the recv_start = 0 path); the acked counter is not bounded by
the sent counter, since ACKs of packets sent in an earlier interval
arrive in this one. -/
theorem C2_amended (s : SenderSt) (t : ℚ) (mi : MonitorInterval)
    (h : Sender.get_run_data s t = some mi) :
    mi.bytes_sent = (s.sent : ℚ) * BYTES_PER_PACKET ∧
    mi.bytes_lost = (s.lost : ℚ) * BYTES_PER_PACKET ∧
    mi.bytes_acked ≤ (s.acked : ℚ) * BYTES_PER_PACKET := by
  have hbp : (0 : ℚ) ≤ BYTES_PER_PACKET := by norm_num [BYTES_PER_PACKET]
  simp only [Sender.get_run_data] at h
  repeat' split at h
  all_goals simp at h
  all_goals subst h
  all_goals refine ⟨rfl, rfl, ?_⟩
  all_goals dsimp only
  all_goals first
    | exact le_refl _
    | exact mul_le_mul_of_nonneg_right (sub_le_self _ zero_le_one) hbp

/-- C2, amended, witness: the relation instantiated on the sender state
reached by the demonstration reset. -/
theorem C2_amended_witness :
    ((Sender.get_run_data chainS0.sender 1).getD MonitorInterval.zero).bytes_sent
        = (chainS0.sender.sent : ℚ) * BYTES_PER_PACKET ∧
    ((Sender.get_run_data chainS0.sender 1).getD MonitorInterval.zero).bytes_lost
        = (chainS0.sender.lost : ℚ) * BYTES_PER_PACKET ∧
    ((Sender.get_run_data chainS0.sender 1).getD MonitorInterval.zero).bytes_acked
        ≤ (chainS0.sender.acked : ℚ) * BYTES_PER_PACKET :=
  C2_amended chainS0.sender 1 _ (by decide)

/-- C6, counterexample: the first env step of the demonstration run
measures a latency increase (lat_diff = 2/25 > 0) and start_stage is
false from then on; yet the seventh step still changes max_tput (240000
to 20338983/200) when the 6-entry receive-rate cache drops its oldest
entry, so max_tput is not frozen after the latency increase. -/
theorem C6_counterexample :
    envReset 400 (envInitNet demoTrace) = some chainS0 ∧
    envStep 400 (-3) chainS0 = some (chainS1, chainR1, false) ∧
    envStep 400 0 chainS1 = some (chainS2, chainR2, false) ∧
    envStep 400 0 chainS2 = some (chainS3, chainR3, false) ∧
    envStep 400 0 chainS3 = some (chainS4, chainR4, false) ∧
    envStep 400 0 chainS4 = some (chainS5, chainR5, false) ∧
    envStep 400 0 chainS5 = some (chainS6, chainR6, false) ∧
    envStep 400 0 chainS6 = some (chainS7, chainR7, false) ∧
    0 < chainS1.sender.lat_diff ∧
    chainS1.sender.start_stage = false ∧
    chainS6.sender.start_stage = false ∧
    chainS6.sender.max_tput = 240000 ∧
    chainS7.sender.max_tput = 20338983 / 200 ∧
    chainS6.sender.max_tput ≠ chainS7.sender.max_tput :=
  ⟨chainReset, chainStep1, chainStep2, chainStep3, chainStep4, chainStep5,
   chainStep6, chainStep7, by decide, by decide, by decide, by decide,
   by decide, by decide⟩

/-- C9, counterexample: reset() does not return the all-zero history.
The bootstrap interval run inside reset() records one real monitor
interval, so the observation after the demonstration reset differs from
the zero vector. -/
theorem C9_counterexample :
    envReset 400 (envInitNet demoTrace) = some chainS0 ∧
    histAsArray (histInit 10) = List.replicate 30 0 ∧
    envObs chainS0 ≠ List.replicate 30 0 :=
  ⟨chainReset, by decide, by decide⟩

/-- C5: dispatching a SEND event at hop 0 always pushes the successor
pacing SEND at hop 0 with time now + 1/rate onto the event queue,
regardless of what can_send_packet returned and of whether the packet
was admitted by the link. -/
theorem C5_pacing_push (s : NetSt) (e : Event) (h0 : e.next_hop = 0) :
    ({ time := s.cur_time + 1 / s.sender.rate
       etype := EventType.send
       next_hop := 0
       latency := 0
       dropped := false
       id := s.event_count
       rto := s.sender.rto
       queue_delay := 0 } : Event) ∈ (dispatchSend s e).q := by
  unfold dispatchSend
  rw [h0]
  by_cases hc : Sender.can_send_packet s.sender = true
  · simp [hc, Sender.on_packet_sent, NetSt.setLink, NetSt.getLink]
    repeat' split
    all_goals simp [qPush, List.mem_orderedInsert, NetSt.setLink]
  · simp [hc, Sender.on_packet_sent, NetSt.setLink, NetSt.getLink]
    repeat' split
    all_goals simp [qPush, List.mem_orderedInsert, NetSt.setLink]

/-- C5, witness: the pacing event pushed when dispatching a hop-0 SEND
at the demonstration state chainS0. -/
theorem C5_witness :
    ({ time := chainS0.cur_time + 1 / chainS0.sender.rate
       etype := EventType.send
       next_hop := 0
       latency := 0
       dropped := false
       id := chainS0.event_count
       rto := chainS0.sender.rto
       queue_delay := 0 } : Event)
      ∈ (dispatchSend chainS0 ⟨1, EventType.send, 0, 0, false, 7, -1, 0⟩).q :=
  C5_pacing_push chainS0 ⟨1, EventType.send, 0, 0, false, 7, -1, 0⟩ rfl

/-- The trace cursor walk of Trace.get_bandwidth only moves idx: the
trace data survives. -/
theorem trace_get_bandwidth_cursor (tr : Trace) (ts : ℚ) :
    (tr.get_bandwidth ts).2.resetCursor = tr.resetCursor := by
  unfold Trace.get_bandwidth
  dsimp only
  split <;> rfl

/-- The trace cursor walk of Trace.get_delay only moves idx. -/
theorem trace_get_delay_cursor (tr : Trace) (ts : ℚ) :
    (tr.get_delay ts).2.resetCursor = tr.resetCursor := by
  unfold Trace.get_delay
  dsimp only
  split <;> rfl

/-- Link.get_bandwidth threads the trace cursor but keeps the data. -/
theorem link_get_bandwidth_cursor (tr : Trace) (t : ℚ) :
    (Link.get_bandwidth tr t).2.resetCursor = tr.resetCursor := by
  unfold Link.get_bandwidth
  dsimp only
  exact trace_get_bandwidth_cursor tr t

/-- Link.get_cur_queue_delay keeps the trace data. -/
theorem link_queue_delay_cursor (l : LinkState) (tr : Trace) (t : ℚ) :
    (Link.get_cur_queue_delay l tr t).2.2.resetCursor = tr.resetCursor := by
  unfold Link.get_cur_queue_delay
  dsimp only
  exact link_get_bandwidth_cursor tr t

/-- Link.get_cur_latency keeps the trace data. -/
theorem link_latency_cursor (l : LinkState) (tr : Trace) (t : ℚ) :
    (Link.get_cur_latency l tr t).2.2.resetCursor = tr.resetCursor := by
  unfold Link.get_cur_latency
  dsimp only
  rw [link_queue_delay_cursor]
  exact trace_get_delay_cursor tr t

/-- Link.packet_enters_link keeps the trace data. -/
theorem link_enters_cursor (l : LinkState) (tr : Trace) (t draw : ℚ) :
    (Link.packet_enters_link l tr t draw).2.2.resetCursor = tr.resetCursor := by
  unfold Link.packet_enters_link
  dsimp only
  split
  · rfl
  · split <;> exact link_queue_delay_cursor l tr t

/-- What one event dispatch preserves: the trace data, the receive-rate
cache, the sender's rate, starting rate and destination, and (once set)
the got_data latch. -/
def presEq (a b : NetSt) : Prop :=
  a.trace.resetCursor = b.trace.resetCursor ∧
  a.recv_rate_cache = b.recv_rate_cache ∧
  a.sender.rate = b.sender.rate ∧
  a.sender.starting_rate = b.sender.starting_rate ∧
  a.sender.dest = b.sender.dest ∧
  (b.sender.got_data = true → a.sender.got_data = true)

/-- presEq composes. -/
theorem presEq_trans {a b c : NetSt} (h1 : presEq a b) (h2 : presEq b c) :
    presEq a c :=
  ⟨h1.1.trans h2.1, h1.2.1.trans h2.2.1, h1.2.2.1.trans h2.2.2.1,
   h1.2.2.2.1.trans h2.2.2.2.1, h1.2.2.2.2.1.trans h2.2.2.2.2.1,
   fun h => h1.2.2.2.2.2 (h2.2.2.2.2.2 h)⟩

/-- One event dispatch preserves the presEq fields. -/
theorem dispatch_presEq (s : NetSt) (e : Event) :
    presEq (dispatchEvent s e) s := by
  unfold dispatchEvent
  split
  · split
    · unfold dispatchAckFinal
      repeat' split
      all_goals refine ⟨rfl, rfl, rfl, rfl, rfl, fun h => ?_⟩
      all_goals first
        | exact h
        | simp [Sender.on_packet_acked, h]
    · unfold dispatchAckForward NetSt.setLink
      dsimp only
      split
      all_goals refine ⟨?_, rfl, rfl, rfl, rfl, fun h => h⟩
      all_goals rw [link_latency_cursor, link_queue_delay_cursor]
  · unfold dispatchSend NetSt.setLink NetSt.getLink
    dsimp only
    repeat' split
    all_goals refine ⟨?_, rfl, rfl, rfl, rfl, fun h => h⟩
    all_goals rw [link_get_bandwidth_cursor, link_enters_cursor,
      link_latency_cursor, link_queue_delay_cursor]

/-- The event loop preserves the presEq fields up to its exit or fuel
exhaustion. -/
theorem runLoop_presEq (fuel : ℕ) (t : ℚ) :
    ∀ s s', (runLoop fuel t s = LoopOut.done s' ∨
        runLoop fuel t s = LoopOut.more s') → presEq s' s := by
  induction fuel with
  | zero =>
    intro s s' h
    rcases h with h | h
    · exact absurd h (by simp [runLoop])
    · simp only [runLoop] at h
      injection h with h
      exact h ▸ ⟨rfl, rfl, rfl, rfl, rfl, fun x => x⟩
  | succ n ih =>
    intro s s' h
    have hpop : ∀ e rest, s.q = e :: rest →
        presEq ({ s with q := rest, cur_time := e.time }) s :=
      fun e rest _ => ⟨rfl, rfl, rfl, rfl, rfl, fun x => x⟩
    cases hq : s.q with
    | nil =>
      rw [runLoop, hq] at h
      dsimp only at h
      rcases h with h | h <;> exact absurd h (by simp)
    | cons e rest =>
      rw [runLoop, hq] at h
      dsimp only at h
      by_cases hb : s.sender.got_data = true ∧ t ≤ e.time ∧
          e.etype = EventType.send
      · rw [if_pos hb] at h
        rcases h with h | h
        · injection h with h
          exact h ▸ ⟨rfl, rfl, rfl, rfl, rfl, fun x => x⟩
        · exact absurd h (by simp)
      · rw [if_neg hb] at h
        exact presEq_trans
          (presEq_trans (ih _ _ h) (dispatch_presEq _ e))
          (hpop e rest hq)

/-- The run_for_dur preamble preserves the presEq fields. -/
theorem rfdPre_presEq (dur : ℚ) (s : NetSt) : presEq (rfdPre dur s).2 s := by
  unfold rfdPre Sender.reset_obs
  dsimp only
  split <;> exact ⟨rfl, rfl, rfl, rfl, rfl, fun h => h⟩

/-- What finalizeRun does to the fields the claims are about: the trace
is untouched, the rate, starting rate and destination survive, and
max_tput is recomputed as the maximum of the updated receive-rate cache
(the last at most 6 rounded receive rates, newest appended). -/
theorem finalize_facts (s s' : NetSt) (r : ℚ) (h : finalizeRun s = some (s', r)) :
    s'.trace = s.trace ∧
    s'.sender.rate = s.sender.rate ∧
    s'.sender.starting_rate = s.sender.starting_rate ∧
    s'.sender.dest = s.sender.dest ∧
    s'.sender.max_tput = maxList s'.recv_rate_cache ∧
    s'.recv_rate_cache =
      (if 6 < (s.recv_rate_cache ++ [s'.sender.recv_rate]).length
       then (s.recv_rate_cache ++ [s'.sender.recv_rate]).drop 1
       else s.recv_rate_cache ++ [s'.sender.recv_rate]) := by
  simp only [finalizeRun] at h
  repeat' split at h
  all_goals simp at h
  all_goals obtain ⟨h1, h2⟩ := h
  all_goals subst h1
  all_goals refine ⟨rfl, rfl, rfl, rfl, rfl, ?_⟩
  all_goals dsimp only
  all_goals simp_all
  all_goals rw [if_neg (by omega)]

/-- envInitNet only moves the trace cursor (by the get_delay(0) call). -/
theorem envInitNet_cursor (tr : Trace) :
    (envInitNet tr).trace.resetCursor = tr.resetCursor := by
  unfold envInitNet queue_initial_packets
  dsimp only
  exact trace_get_delay_cursor tr 0

/-- The fresh sender starts at its starting rate. -/
theorem envInitNet_rate (tr : Trace) :
    (envInitNet tr).sender.rate = (envInitNet tr).sender.starting_rate := rfl

/-- C6, amended: max_tput is recomputed by every successful run_for_dur
as the maximum of the receive-rate cache, which keeps the last at most
six rounded receive rates (oldest dropped); there is no freeze after a
latency increase. -/
theorem C6_amended (fuel : ℕ) (dur : ℚ) (s s' : NetSt) (r : ℚ)
    (h : runForDur fuel dur s = some (s', r)) :
    s'.sender.max_tput = maxList s'.recv_rate_cache ∧
    s'.recv_rate_cache =
      (if 6 < (s.recv_rate_cache ++ [s'.sender.recv_rate]).length
       then (s.recv_rate_cache ++ [s'.sender.recv_rate]).drop 1
       else s.recv_rate_cache ++ [s'.sender.recv_rate]) := by
  simp only [runForDur] at h
  split at h
  next s1 hloop =>
    have hf := finalize_facts s1 s' r h
    have hl := runLoop_presEq fuel (rfdPre dur s).1 (rfdPre dur s).2 s1
      (Or.inl hloop)
    have hp := rfdPre_presEq dur s
    have hc : s1.recv_rate_cache = s.recv_rate_cache := (hl.2.1).trans hp.2.1
    refine ⟨hf.2.2.2.2.1, ?_⟩
    rw [hf.2.2.2.2.2, hc]
  all_goals exact absurd h (by simp)

/-- C6, amended, witness: the cache relation instantiated on the
bootstrap interval of the demonstration run. -/
theorem C6_amended_witness :
    chainS0.sender.max_tput = maxList chainS0.recv_rate_cache ∧
    chainS0.recv_rate_cache =
      (if 6 < ((envInitNet (envInitNet demoTrace).trace.resetCursor).recv_rate_cache
            ++ [chainS0.sender.recv_rate]).length
       then ((envInitNet (envInitNet demoTrace).trace.resetCursor).recv_rate_cache
            ++ [chainS0.sender.recv_rate]).drop 1
       else (envInitNet (envInitNet demoTrace).trace.resetCursor).recv_rate_cache
            ++ [chainS0.sender.recv_rate]) :=
  C6_amended 400 (1/100) (envInitNet (envInitNet demoTrace).trace.resetCursor)
    chainS0 chainR0 (by decide)

/-- C9, amended: after a successful reset, resetting again returns the
very same state (so the observation vectors of back-to-back resets are
identical), and the sender's rate equals its starting rate; only the
returned-observation-is-all-zero part of the claim fails. -/
theorem C9_amended (fuel : ℕ) (s r : NetSt) (h : envReset fuel s = some r) :
    envReset fuel r = some r ∧ r.sender.rate = r.sender.starting_rate := by
  simp only [envReset] at h
  split at h
  next heq => exact absurd h (by simp)
  next s2 rr heq =>
    injection h with h
    subst h
    have hrfd := heq
    simp only [runForDur] at heq
    split at heq
    next s1 hloop =>
      have hf := finalize_facts s1 s2 rr heq
      have hl := runLoop_presEq fuel
        (rfdPre (1/100) (envInitNet s.trace.resetCursor)).1
        (rfdPre (1/100) (envInitNet s.trace.resetCursor)).2 s1 (Or.inl hloop)
      have hp := rfdPre_presEq (1/100) (envInitNet s.trace.resetCursor)
      have hr : s2.sender.rate = s2.sender.starting_rate := by
        calc s2.sender.rate = s1.sender.rate := hf.2.1
          _ = (rfdPre (1/100) (envInitNet s.trace.resetCursor)).2.sender.rate :=
            hl.2.2.1
          _ = (envInitNet s.trace.resetCursor).sender.rate := hp.2.2.1
          _ = (envInitNet s.trace.resetCursor).sender.starting_rate :=
            envInitNet_rate _
          _ = (rfdPre (1/100) (envInitNet s.trace.resetCursor)).2.sender.starting_rate :=
            hp.2.2.2.1.symm
          _ = s1.sender.starting_rate := hl.2.2.2.1.symm
          _ = s2.sender.starting_rate := hf.2.2.1.symm
      have hcur : s2.trace.resetCursor = s.trace.resetCursor := by
        calc s2.trace.resetCursor = s1.trace.resetCursor := by rw [hf.1]
          _ = (rfdPre (1/100) (envInitNet s.trace.resetCursor)).2.trace.resetCursor :=
            hl.1
          _ = (envInitNet s.trace.resetCursor).trace.resetCursor := hp.1
          _ = s.trace.resetCursor.resetCursor := envInitNet_cursor _
          _ = s.trace.resetCursor := rfl
      refine ⟨?_, hr⟩
      simp only [envReset]
      rw [hcur, hrfd]
    all_goals exact absurd heq (by simp)

/-- C9, amended, witness: resetting again from the state of the
demonstration reset returns that very state, whose rate is the starting
rate. -/
theorem C9_amended_witness :
    envReset 400 chainS0 = some chainS0 ∧
    chainS0.sender.rate = chainS0.sender.starting_rate :=
  C9_amended 400 (envInitNet demoTrace) chainS0 chainReset

set_option maxHeartbeats 1000000 in
/-- SENDs sit only at hop 0: dispatching preserves it (the propagated
packet of a hop-0 SEND becomes an ACK because the destination is 0, and
forwarding pushes ACKs only). -/
theorem dispatch_sends (s : NetSt) (e : Event)
    (hd : s.sender.dest = 0)
    (hq : ∀ x ∈ s.q, x.etype = EventType.send → x.next_hop = 0)
    (he : e.etype = EventType.send → e.next_hop = 0) :
    ∀ x ∈ (dispatchEvent s e).q, x.etype = EventType.send → x.next_hop = 0 := by
  unfold dispatchEvent
  split
  · split
    · unfold dispatchAckFinal
      repeat' split
      all_goals exact hq
    · unfold dispatchAckForward NetSt.setLink
      dsimp only
      split
      all_goals intro x hx hsx
      all_goals simp only [qPush, List.mem_orderedInsert] at hx
      all_goals rcases hx with hx | hx
      all_goals first
        | (subst hx; simp at hsx)
        | exact hq x hx hsx
  · next hnack =>
    have hsend : e.etype = EventType.send := by
      cases he' : e.etype
      · exact absurd he' hnack
      · rfl
    have he0 := he hsend
    unfold dispatchSend NetSt.setLink NetSt.getLink
    by_cases hc : Sender.can_send_packet s.sender = true
    · simp [he0, hc, hd, Sender.on_packet_sent]
      repeat' split
      all_goals intro x hx hsx
      all_goals simp only [qPush, List.mem_orderedInsert] at hx
      all_goals first
        | exact hq x hx hsx
        | (rcases hx with hx | hx | hx
           · subst hx
             first
             | rfl
             | simp at hsx
           · subst hx
             first
             | rfl
             | simp at hsx
           · exact hq x hx hsx)
    · simp [he0, hc, hd, Sender.on_packet_sent]
      repeat' split
      all_goals intro x hx hsx
      all_goals simp only [qPush, List.mem_orderedInsert] at hx
      all_goals first
        | exact hq x hx hsx
        | (rcases hx with hx | hx
           · subst hx
             first
             | rfl
             | simp at hsx
           · exact hq x hx hsx)

/-- C3: when the sender has already received an ACK (got_data), the
event loop of run_for_dur stops exactly at the first pending event that
is a SEND -- necessarily at hop 0, since with destination 0 every queued
SEND is a pacing event at hop 0 -- whose time has reached the target end
time: every earlier event is dispatched, the break leaves that SEND in
the queue and the clock is set to its time. -/
theorem C3_loop_break (fuel : ℕ) (endTime : ℚ) :
    ∀ s s', s.sender.got_data = true → s.sender.dest = 0 →
      (∀ x ∈ s.q, x.etype = EventType.send → x.next_hop = 0) →
      runLoop fuel endTime s = LoopOut.done s' →
      ∃ e rest, s'.q = e :: rest ∧ e.etype = EventType.send ∧
        e.next_hop = 0 ∧ endTime ≤ e.time ∧ s'.cur_time = e.time := by
  induction fuel with
  | zero =>
    intro s s' _ _ _ h
    exact absurd h (by simp [runLoop])
  | succ n ih =>
    intro s s' hg hd hq h
    cases hqe : s.q with
    | nil =>
      rw [runLoop, hqe] at h
      dsimp only at h
      exact absurd h (by simp)
    | cons e rest =>
      rw [runLoop, hqe] at h
      dsimp only at h
      by_cases hb : s.sender.got_data = true ∧ endTime ≤ e.time ∧
          e.etype = EventType.send
      · rw [if_pos hb] at h
        injection h with h
        subst h
        refine ⟨e, rest, rfl, hb.2.2, ?_, hb.2.1, rfl⟩
        exact hq e (by rw [hqe]; exact List.mem_cons_self e rest) hb.2.2
      · rw [if_neg hb] at h
        have hpres := dispatch_presEq { s with q := rest, cur_time := e.time } e
        have h1 : (dispatchEvent { s with q := rest, cur_time := e.time } e).sender.got_data = true :=
          hpres.2.2.2.2.2 hg
        have h2 : (dispatchEvent { s with q := rest, cur_time := e.time } e).sender.dest = 0 :=
          hpres.2.2.2.2.1.trans hd
        have h3 := dispatch_sends { s with q := rest, cur_time := e.time } e hd
          (fun x hx hsx => hq x (by rw [hqe]; exact List.mem_cons_of_mem e hx) hsx)
          (fun hsx => hq e (by rw [hqe]; exact List.mem_cons_self e rest) hsx)
        exact ih _ s' h1 h2 h3 h

/-- A one-SEND queue on the demonstration reset state, for the C3
witness. -/
def C3net : NetSt := { chainS0 with q := [⟨5, EventType.send, 0, 0, false, 3, -1, 0⟩] }

/-- C3, witness: from C3net the loop with end time 3 breaks at the
queued SEND at time 5. -/
theorem C3_witness :
    ∃ e rest, ({ C3net with cur_time := 5 } : NetSt).q = e :: rest ∧
      e.etype = EventType.send ∧ e.next_hop = 0 ∧ (3 : ℚ) ≤ e.time ∧
      ({ C3net with cur_time := 5 } : NetSt).cur_time = e.time :=
  C3_loop_break 1 3 C3net { C3net with cur_time := 5 } (by decide) (by decide)
    (by decide) (by decide)

/-- Number of in-flight packet events (ACK-typed events) in a queue. -/
def countAcks (q : List Event) : ℕ :=
  q.countP fun x => x.etype == EventType.ack

/-- Pushing an event adds one to the ACK count exactly when it is an
ACK. -/
theorem countAcks_push (a : Event) (q : List Event) :
    countAcks (qPush a q) =
      countAcks q + (if a.etype == EventType.ack then 1 else 0) := by
  unfold countAcks qPush
  rw [List.Perm.countP_eq _ (List.perm_orderedInsert qLe a q), List.countP_cons]

/-- setLink keeps the event queue. -/
theorem setLink_q (s : NetSt) (i : ℕ) (l : LinkState) :
    (NetSt.setLink s i l).q = s.q := by
  unfold NetSt.setLink
  split
  all_goals rfl

/-- setLink keeps the sender. -/
theorem setLink_sender (s : NetSt) (i : ℕ) (l : LinkState) :
    (NetSt.setLink s i l).sender = s.sender := by
  unfold NetSt.setLink
  split
  all_goals rfl

/-- The C10 flight invariant: with destination 0, bytes_in_flight is
BPPZ times the number of packets in flight, counted as the ACK-typed
queue events plus the packets absorbed by timeouts since the baseline
C. -/
def flightInv (C : ℕ) (s : NetSt) : Prop :=
  s.sender.dest = 0 ∧ C ≤ s.sender.calls_timeout ∧
  s.sender.bytes_in_flight =
    BPPZ * ((countAcks s.q : ℤ) + (s.sender.calls_timeout : ℤ) - (C : ℤ))

/-- Network.reset establishes the flight invariant with baseline 0: the
queue is cleared and then holds the single initial SEND, and the fresh
sender has bytes_in_flight 0 and calls_timeout 0. -/
theorem flightInv_reset (s : NetSt) (hd : s.sender.dest = 0) :
    flightInv 0 (Network.reset s) := by
  unfold flightInv Network.reset queue_initial_packets
  dsimp only
  refine ⟨?_, Nat.zero_le _, ?_⟩
  · exact hd
  · simp [Sender.reset, Sender.reset_obs, countAcks, qPush, List.orderedInsert,
      List.countP_cons, BPPZ]

set_option maxHeartbeats 2000000 in
/-- Dispatching one popped event preserves the flight invariant: a
final-hop ACK either times out (absorbed by calls_timeout), is lost or
acked (both decrement bytes_in_flight by one packet); a forwarded ACK
is re-pushed; a hop-0 SEND increments bytes_in_flight exactly when the
propagated packet event is pushed as an ACK. -/
theorem flight_dispatch (C : ℕ) (s : NetSt) (e : Event) (rest : List Event)
    (hqe : s.q = e :: rest) (hI : flightInv C s) :
    flightInv C (dispatchEvent { s with q := rest, cur_time := e.time } e) := by
  obtain ⟨hd, hC, hB⟩ := hI
  rw [hqe] at hB
  unfold flightInv
  unfold dispatchEvent
  split
  · next hack =>
    have hcq : countAcks (e :: rest) = countAcks rest + 1 := by
      simp [countAcks, List.countP_cons, hack]
    split
    · unfold dispatchAckFinal
      repeat' split
      all_goals refine ⟨?_, ?_, ?_⟩
      all_goals simp only [Sender.timeout, Sender.on_packet_lost,
        Sender.on_packet_acked, BPPZ] at hB ⊢
      all_goals first
        | exact hd
        | omega
    · unfold dispatchAckForward
      dsimp only
      refine ⟨?_, ?_, ?_⟩
      · simp only [setLink_sender]
        exact hd
      · simp only [setLink_sender]
        exact hC
      · simp [setLink_sender, setLink_q, countAcks_push, BPPZ] at hB ⊢
        omega
  · next hnack =>
    have hcq : countAcks (e :: rest) = countAcks rest := by
      simp [countAcks, List.countP_cons, hnack]
    unfold dispatchSend NetSt.setLink NetSt.getLink
    by_cases h0 : e.next_hop = 0
    · by_cases hcs : Sender.can_send_packet s.sender = true
      · refine ⟨?_, ?_, ?_⟩
        · simp [h0, hcs, hd, Sender.on_packet_sent]
          first
          | rfl
          | exact hd
          | (repeat' split
             all_goals first
               | rfl
               | exact hd)
        · simp [h0, hcs, Sender.on_packet_sent]
          first
          | exact hC
          | (repeat' split
             all_goals exact hC)
        · simp [h0, hcs, hd, Sender.on_packet_sent, countAcks_push, BPPZ] at hB ⊢
          first
          | omega
          | (repeat' split
             all_goals first
               | omega
               | (simp [countAcks_push, BPPZ]
                  omega))
      · refine ⟨?_, ?_, ?_⟩
        · simp [h0, hcs, hd]
          first
          | rfl
          | exact hd
          | (repeat' split
             all_goals first
               | rfl
               | exact hd)
        · simp [h0, hcs]
          first
          | exact hC
          | (repeat' split
             all_goals exact hC)
        · simp [h0, hcs, hd, countAcks_push, BPPZ] at hB ⊢
          first
          | omega
          | (repeat' split
             all_goals first
               | omega
               | (simp [countAcks_push, BPPZ]
                  omega))
    · refine ⟨?_, ?_, ?_⟩
      · simp [h0, hd]
        first
        | rfl
        | exact hd
        | (repeat' split
           all_goals first
             | rfl
             | exact hd)
      · simp [h0]
        first
        | exact hC
        | (repeat' split
           all_goals exact hC)
      · simp [h0, hd, countAcks_push, BPPZ] at hB ⊢
        first
        | omega
        | (repeat' split
           all_goals first
             | omega
             | (simp [countAcks_push, BPPZ]
                omega))

/-- The event loop preserves the flight invariant, whether it breaks or
runs out of fuel. -/
theorem runLoop_flight (C : ℕ) (fuel : ℕ) (t : ℚ) :
    ∀ s s', flightInv C s →
      (runLoop fuel t s = LoopOut.done s' ∨ runLoop fuel t s = LoopOut.more s') →
      flightInv C s' := by
  induction fuel with
  | zero =>
    intro s s' hI h
    rcases h with h | h
    · exact absurd h (by simp [runLoop])
    · simp only [runLoop] at h
      injection h with h
      subst h
      exact hI
  | succ n ih =>
    intro s s' hI h
    cases hqe : s.q with
    | nil =>
      rw [runLoop, hqe] at h
      dsimp only at h
      rcases h with h | h
      all_goals exact absurd h (by simp)
    | cons e rest =>
      rw [runLoop, hqe] at h
      dsimp only at h
      by_cases hb : s.sender.got_data = true ∧ t ≤ e.time ∧
          e.etype = EventType.send
      · rw [if_pos hb] at h
        rcases h with h | h
        · injection h with h
          subst h
          refine ⟨hI.1, hI.2.1, ?_⟩
          have hB := hI.2.2
          rw [hqe] at hB
          exact hB
        · exact absurd h (by simp)
      · rw [if_neg hb] at h
        exact ih _ s' (flight_dispatch C s e rest hqe hI) h

/-- The freshly constructed network (env reset rebuilds links, sender
and Network from scratch) satisfies the flight invariant with baseline
0: empty history, bytes_in_flight 0, calls_timeout 0, and the queue
holds only the initial SEND. -/
theorem flightInv_init (tr : Trace) : flightInv 0 (envInitNet tr) := by
  unfold flightInv envInitNet queue_initial_packets
  dsimp only
  refine ⟨rfl, Nat.zero_le _, ?_⟩
  simp [Sender.reset_obs, countAcks, qPush, List.orderedInsert,
    List.countP_cons, BPPZ]

/-- The run_for_dur preamble (start_stage clearing and reset_obs)
touches neither bytes_in_flight, calls_timeout, dest nor the queue, so
it preserves the flight invariant. -/
theorem rfdPre_flight (C : ℕ) (dur : ℚ) (s : NetSt) (hI : flightInv C s) :
    flightInv C (rfdPre dur s).2 := by
  obtain ⟨hd, hC, hB⟩ := hI
  unfold rfdPre
  dsimp only
  split
  all_goals exact ⟨hd, hC, hB⟩

/-- The finalization tail of run_for_dur (record_run and the derived
statistics) rewrites only history, statistics, cache and run_dur, so it
preserves the flight invariant. -/
theorem finalize_flight (C : ℕ) (s s' : NetSt) (r : ℚ)
    (h : finalizeRun s = some (s', r)) (hI : flightInv C s) :
    flightInv C s' := by
  obtain ⟨hd, hC, hB⟩ := hI
  simp only [finalizeRun] at h
  repeat' split at h
  all_goals simp at h
  all_goals obtain ⟨h1, h2⟩ := h
  all_goals subst h1
  all_goals exact ⟨hd, hC, hB⟩

/-- apply_rate_delta / set_rate change only the rate, so a rate action
preserves the flight invariant. -/
theorem stepApply_flight (C : ℕ) (d : ℚ) (s : NetSt) (hI : flightInv C s) :
    flightInv C (stepApply d s) := by
  obtain ⟨hd, hC, hB⟩ := hI
  unfold stepApply Sender.apply_rate_delta Sender.set_rate
  dsimp only
  repeat' split
  all_goals exact ⟨hd, hC, hB⟩

/-- A whole successful run_for_dur call (preamble, event loop,
finalization) preserves the flight invariant. -/
theorem runForDur_flight (C : ℕ) (fuel : ℕ) (dur : ℚ) (s s' : NetSt) (r : ℚ)
    (h : runForDur fuel dur s = some (s', r)) (hI : flightInv C s) :
    flightInv C s' := by
  simp only [runForDur] at h
  split at h
  next s1 hloop =>
    exact finalize_flight C s1 s' r h
      (runLoop_flight C fuel (rfdPre dur s).1 (rfdPre dur s).2 s1
        (rfdPre_flight C dur s hI) (Or.inl hloop))
  all_goals exact absurd h (by simp)

/-- The network states at monitor-interval boundaries of one episode: a
freshly constructed network (the env reset path), a Network.reset of
any state whose sender has destination 0, and closure under completed
run_for_dur calls and rate actions in any order. -/
inductive episodeState : NetSt → Prop
  | init (tr : Trace) : episodeState (envInitNet tr)
  | reset (s : NetSt) (h : s.sender.dest = 0) : episodeState (Network.reset s)
  | run (fuel : ℕ) (dur : ℚ) (s s' : NetSt) (r : ℚ) :
      episodeState s → runForDur fuel dur s = some (s', r) → episodeState s'
  | rate (d : ℚ) (s : NetSt) :
      episodeState s → episodeState (stepApply d s)

/-- Every interval-boundary state of an episode satisfies the flight
invariant with baseline 0. -/
theorem episode_flight (s : NetSt) (hs : episodeState s) : flightInv 0 s := by
  induction hs with
  | init tr => exact flightInv_init tr
  | reset t h => exact flightInv_reset t h
  | run fuel dur t t' r hprev hrun ih => exact runForDur_flight 0 fuel dur t t' r hrun ih
  | rate d t hprev ih => exact stepApply_flight 0 d t ih

/-- C10: within a single episode -- at every monitor-interval boundary
state reachable from a fresh construction or a Network.reset by any
sequence of completed run_for_dur calls and rate actions, and at every
intermediate state of the event loop of the next run_for_dur --
bytes_in_flight is a non-negative multiple of BYTES_PER_PACKET: every
on_packet_acked / on_packet_lost decrement consumes a distinct ACK
event whose earlier hop-0 SEND performed the matching on_packet_sent
increment (or is absorbed by a timeout, which leaves the counter
alone), and reset clears the event queue so no pre-reset packet event
can decrement the fresh counter. -/
theorem C10_bytes_in_flight (s : NetSt) (hs : episodeState s)
    (fuel : ℕ) (dur : ℚ) (s' : NetSt)
    (h : runLoop fuel (rfdPre dur s).1 (rfdPre dur s).2 = LoopOut.done s' ∨
         runLoop fuel (rfdPre dur s).1 (rfdPre dur s).2 = LoopOut.more s') :
    (∃ n : ℕ, s.sender.bytes_in_flight = BPPZ * (n : ℤ)) ∧
    (∃ n : ℕ, s'.sender.bytes_in_flight = BPPZ * (n : ℤ)) := by
  have hI := episode_flight s hs
  have hI2 := runLoop_flight 0 fuel (rfdPre dur s).1 (rfdPre dur s).2 s'
    (rfdPre_flight 0 dur s hI) h
  constructor
  · obtain ⟨-, -, hB⟩ := hI
    refine ⟨countAcks s.q + s.sender.calls_timeout, ?_⟩
    simp only [BPPZ] at hB ⊢
    omega
  · obtain ⟨-, -, hB⟩ := hI2
    refine ⟨countAcks s'.q + s'.sender.calls_timeout, ?_⟩
    simp only [BPPZ] at hB ⊢
    omega

/-- C10, witness: chainS0, the boundary state after the full bootstrap
run_for_dur of the demonstration reset (a 400-fuel event loop with its
real dispatches), and the state entering the next interval's loop. -/
theorem C10_witness :
    (∃ n : ℕ, chainS0.sender.bytes_in_flight = BPPZ * (n : ℤ)) ∧
    (∃ n : ℕ, (rfdPre (1/100) chainS0).2.sender.bytes_in_flight = BPPZ * (n : ℤ)) :=
  C10_bytes_in_flight chainS0
    (episodeState.run 400 (1/100)
      (envInitNet (envInitNet demoTrace).trace.resetCursor) chainS0 chainR0
      (episodeState.init (envInitNet demoTrace).trace.resetCursor) (by decide))
    0 (1/100) (rfdPre (1/100) chainS0).2 (Or.inr rfl)

end StagedRun
